import Mathlib

/-
Verification development for the StoryForge simulation core
(src/core/engine.ts together with the narrative type definitions).

The engine is embedded shallowly: the TypeScript classes WorldState,
GateEvaluator, ViewBuilder and SimulationEngine become pure Lean
functions over explicit state records.  JavaScript runtime values
(`unknown` in the source) are modelled by the inductive type `Value`;
strings that the source receives from JSON (operator names, event
types) stay strings, since TypeScript union types are erased at
runtime and the engine's switch statements all carry default branches.

Modelling notes, referenced from individual definitions:
- JavaScript `Map` preserves insertion order and `set` on an existing
  key keeps its position; `mapSet`/`mapGet` below mirror that on
  association lists.
- `uuid()` draws are modelled by a deterministic fresh-name supply
  (a counter); `Date` timestamps are omitted because no embedded code
  path reads them back.
- JS strict equality on two arrays is reference equality; values
  reaching a comparison from two different sources are distinct
  references, so array comparison is modelled as false.
-/

namespace StoryForge

/-- Runtime JavaScript-like value, the model of `unknown` in the source.
Numbers are modelled as integers; no claim depends on float behaviour. -/
inductive Value where
  | vNum (n : Int)
  | vStr (s : String)
  | vBool (b : Bool)
  | vArr (elems : List Value)
  | vNull
  | vUndef
  | vNaN

/-- Strict equality `===`.  Different runtime types never compare equal,
NaN is not equal to itself, and arrays compare by reference (modelled
false, see the header note). -/
def jsStrictEq : Value → Value → Bool
  | .vNum a, .vNum b => a == b
  | .vStr a, .vStr b => a == b
  | .vBool a, .vBool b => a == b
  | .vNull, .vNull => true
  | .vUndef, .vUndef => true
  | _, _ => false

/-- SameValueZero, the comparison used by `Array.prototype.includes`:
like `===` except that NaN matches NaN. -/
def sameValueZero (a b : Value) : Bool :=
  match a, b with
  | .vNaN, .vNaN => true
  | x, y => jsStrictEq x y

/-- Numeric reading of a value, for the arithmetic mutation operations
and the numeric gate comparisons.  `none` stands for a NaN outcome.
String-to-number coercion is not modelled; no claim exercises it. -/
def toNumber : Value → Option Int
  | .vNum n => some n
  | .vBool b => some (if b then 1 else 0)
  | .vNull => some 0
  | _ => none

/-- JavaScript `>` restricted to the numeric case; a NaN operand makes
every comparison false. -/
def jsGt (a b : Value) : Bool :=
  match toNumber a, toNumber b with
  | some x, some y => x > y
  | _, _ => false

/-- JavaScript `>=` restricted to the numeric case. -/
def jsGe (a b : Value) : Bool :=
  match toNumber a, toNumber b with
  | some x, some y => x ≥ y
  | _, _ => false

/-- JavaScript `<` restricted to the numeric case. -/
def jsLt (a b : Value) : Bool :=
  match toNumber a, toNumber b with
  | some x, some y => x < y
  | _, _ => false

/-- JavaScript `<=` restricted to the numeric case. -/
def jsLe (a b : Value) : Bool :=
  match toNumber a, toNumber b with
  | some x, some y => x ≤ y
  | _, _ => false

/-- JavaScript `+` on coerced numbers (string concatenation of `+` is
not modelled; no claim exercises it). -/
def jsAdd (a b : Value) : Value :=
  match toNumber a, toNumber b with
  | some x, some y => .vNum (x + y)
  | _, _ => .vNaN

/-- JavaScript `-` on coerced numbers. -/
def jsSub (a b : Value) : Value :=
  match toNumber a, toNumber b with
  | some x, some y => .vNum (x - y)
  | _, _ => .vNaN

/-- JavaScript `*` on coerced numbers. -/
def jsMul (a b : Value) : Value :=
  match toNumber a, toNumber b with
  | some x, some y => .vNum (x * y)
  | _, _ => .vNaN

/-- JavaScript truthiness of a value. -/
def truthy : Value → Bool
  | .vBool b => b
  | .vNum n => n != 0
  | .vStr s => s != ""
  | .vNull => false
  | .vUndef => false
  | .vNaN => false
  | .vArr _ => true

/-- Truthiness of an optional string field, as tested by guards such as
`if (variableId)` or `if (choice.gateId)`: absent and empty strings are
both falsy. -/
def strTruthy : Option String → Bool
  | none => false
  | some s => s != ""

/-- Membership test of `Array.prototype.includes`. -/
def jsIncludes (l : List Value) (v : Value) : Bool :=
  l.any (fun x => sameValueZero x v)

/-- Last `n` elements of a list, the behaviour of `slice(-n)`. -/
def jsSliceLast {α : Type} (n : Nat) (l : List α) : List α :=
  l.drop (l.length - n)

/-- Index of the first element satisfying `p`, with the `-1` convention
of `Array.prototype.findIndex`. -/
def jsFindIndex {α : Type} (p : α → Bool) (l : List α) : Int :=
  match l.findIdx? p with
  | some i => (i : Int)
  | none => -1

/-- Association list read, the model of `Map.prototype.get`. -/
def mapGet {α : Type} : List (String × α) → String → Option α
  | [], _ => none
  | (k0, v0) :: rest, k => if k0 = k then some v0 else mapGet rest k

/-- Association list write, the model of `Map.prototype.set`: an
existing key keeps its position, a new key is appended. -/
def mapSet {α : Type} : List (String × α) → String → α → List (String × α)
  | [], k, v => [(k, v)]
  | (k0, v0) :: rest, k, v =>
    if k0 = k then (k, v) :: rest else (k0, v0) :: mapSet rest k v

-- ==========================================================================
-- Narrative data model (narrative/types.ts)
-- ==========================================================================

/-- Visibility scope of a variable (`VariableSchema.scope`). -/
inductive Scope where
  | GLOBAL
  | AGENT
  | DYADIC
  | LOCAL
deriving DecidableEq

/-- Variable definition (`VariableSchema`).  The `bounds` and
`description` fields are never read by the engine and are omitted. -/
structure Variable where
  id : String
  name : String
  vtype : String
  scope : Scope
  defaultValue : Value

/-- Runtime state of one variable (`VariableStateSchema`). -/
structure VariableState where
  variableId : String
  value : Value
  lastModifiedFrame : Nat
  modifiedBy : Option String

/-- Recursive gate condition (`GateConditionSchema`).  The operator is
kept as a runtime string: the evaluator's switch carries a default
branch that is reachable for JSON input outside the declared enum.
The optional `children` array is modelled as a plain list because the
evaluator only reads it through `children ?? []` and `children?.[0]`,
under which an absent list and an empty list are indistinguishable. -/
inductive GateCondition where
  | mk (operator : String) (variableId : Option String) (value : Option Value)
       (children : List GateCondition)

/-- Operator of a gate condition. -/
def GateCondition.operator : GateCondition → String
  | .mk op _ _ _ => op

/-- Gate definition (`GateSchema`). -/
structure Gate where
  id : String
  name : String
  condition : GateCondition

/-- Variable mutation attached to a choice (`VariableMutationSchema`).
The operation is a runtime string for the same reason as gate
operators: `applyMutation` switches on it with a default branch. -/
structure VariableMutation where
  variableId : String
  operation : String
  value : Value
  targetAgent : Option String

/-- Choice definition (`ChoiceSchema`); `metadata` omitted (unread). -/
structure Choice where
  id : String
  text : String
  gateId : Option String
  mutations : List VariableMutation
  nextEncounterId : Option String
  nextSpoolId : Option String
  isTerminal : Option Bool

/-- Encounter definition (`EncounterSchema`); fields the engine never
reads (`isEntryPoint`, `isExitPoint`, `timeoutChoiceId`, `metadata`)
are omitted. -/
structure Encounter where
  id : String
  spoolId : String
  name : String
  description : String
  participants : List String
  choices : List Choice
  gateId : Option String

/-- Spool definition (`SpoolSchema`); unread fields omitted. -/
structure Spool where
  id : String
  name : String
  description : String
  entryGateId : Option String
  entryEncounterId : String
  encounters : List String

/-- Status of an agent's progress through a spool (`SpoolStatusSchema`). -/
inductive SpoolStatus where
  | AVAILABLE
  | ACTIVE
  | SUSPENDED
  | COMPLETED
  | ABANDONED
deriving DecidableEq

/-- Entry of a spool progress choice history. -/
structure ChoiceHistoryEntry where
  encounterId : String
  choiceId : String
  frame : Nat

/-- Per-agent, per-spool runtime progress (`SpoolProgressSchema`). -/
structure SpoolProgress where
  spoolId : String
  agentId : String
  status : SpoolStatus
  currentEncounterId : Option String
  enteredAtFrame : Nat
  completedAtFrame : Option Nat
  choiceHistory : List ChoiceHistoryEntry

/-- Storyworld definition (`StoryworldSchema`); `config` and `metadata`
are never read by the engine and are omitted. -/
structure Storyworld where
  id : String
  name : String
  version : String
  description : String
  varDefs : List Variable  -- field `variables` of the source; renamed, keyword in Lean

  gates : List Gate
  spools : List Spool
  encounters : List Encounter

-- ==========================================================================
-- World State (engine.ts, class WorldState)
-- ==========================================================================

/-- Authoritative runtime state of one storyworld instance: variable
states keyed by variable id, spool progress keyed by agent id, and the
frame counter. -/
structure WorldState where
  varStates : List (String × VariableState)  -- field `variables` of the source; renamed, keyword in Lean
  spoolProgress : List (String × List SpoolProgress)
  frame : Nat

/-- Initialisation of variable states from declared defaults, the
variable-seeding loop of the WorldState constructor. -/
def initVariables : List Variable → List (String × VariableState) → List (String × VariableState)
  | [], acc => acc
  | v :: rest, acc =>
    initVariables rest (mapSet acc v.id
      { variableId := v.id, value := v.defaultValue, lastModifiedFrame := 0, modifiedBy := none })

/-- Constructor of a world state (`new WorldState(storyworld)`). -/
def WorldState.ofStoryworld (sw : Storyworld) : WorldState :=
  { varStates := initVariables sw.varDefs []
    spoolProgress := []
    frame := 0 }

/-- Lookup of a variable state (`WorldState.getVariable`). -/
def WorldState.getVariable (ws : WorldState) (id : String) : Option VariableState :=
  mapGet ws.varStates id

/-- Write of a variable state (`WorldState.setVariable`). -/
def WorldState.setVariable (ws : WorldState) (id : String) (v : Value)
    (modifiedBy : Option String) : WorldState :=
  let vs : VariableState :=
    { variableId := id, value := v, lastModifiedFrame := ws.frame, modifiedBy := modifiedBy }
  { ws with varStates := mapSet ws.varStates id vs }

/-- Value computation of one mutation operation, the switch body of
`WorldState.applyMutation`.  `APPEND` and `REMOVE` on a non-array
would raise a TypeError in the source; those corners are modelled as
producing `undefined` and are not exercised by any claim. -/
def applyOpValue (operation : String) (current : Value) (operand : Value) : Value :=
  match operation with
  | "SET" => operand
  | "ADD" => jsAdd current operand
  | "SUBTRACT" => jsSub current operand
  | "MULTIPLY" => jsMul current operand
  | "APPEND" =>
    match current with
    | .vArr l => .vArr (l ++ [operand])
    | _ => .vUndef
  | "REMOVE" =>
    match current with
    | .vArr l => .vArr (l.filter (fun x => !jsStrictEq x operand))
    | _ => .vUndef
  | "TOGGLE" => .vBool (!truthy current)
  | _ => operand

/-- Application of one mutation (`WorldState.applyMutation`): a missing
variable is silently ignored, otherwise the new value is written with
the current frame and the acting agent. -/
def WorldState.applyMutation (ws : WorldState) (m : VariableMutation) (actorId : String) : WorldState :=
  match ws.getVariable m.variableId with
  | none => ws
  | some cur => ws.setVariable m.variableId (applyOpValue m.operation cur.value m.value) (some actorId)

/-- Sequential application of a mutation list in declaration order, the
world-state effect of the mutation loop in `processChoice`. -/
def WorldState.applyMutations (ws : WorldState) (ms : List VariableMutation)
    (actorId : String) : WorldState :=
  ms.foldl (fun w m => w.applyMutation m actorId) ws

/-- All variable states in map insertion order (`getAllVariables`). -/
def WorldState.getAllVariables (ws : WorldState) : List VariableState :=
  ws.varStates.map (fun p => p.2)

/-- Spool progress list of one agent (`getAgentSpools`). -/
def WorldState.getAgentSpools (ws : WorldState) (agentId : String) : List SpoolProgress :=
  (mapGet ws.spoolProgress agentId).getD []

/-- Whole-list replacement of an agent's progress (`setAgentSpools`). -/
def WorldState.setAgentSpools (ws : WorldState) (agentId : String)
    (progress : List SpoolProgress) : WorldState :=
  { ws with spoolProgress := mapSet ws.spoolProgress agentId progress }

/-- Frame counter increment (`advanceFrame`). -/
def WorldState.advanceFrame (ws : WorldState) : WorldState :=
  { ws with frame := ws.frame + 1 }

-- ==========================================================================
-- Gate Evaluator (engine.ts, class GateEvaluator)
-- ==========================================================================

/-- Up-front variable read of `evaluateCondition`: a falsy `variableId`
or a missing variable leaves the value `undefined`
(`varState?.value` on an absent state). -/
def condVarValue (ws : WorldState) (variableId : Option String) : Value :=
  if strTruthy variableId then
    match ws.getVariable (variableId.getD "") with
    | some vs => vs.value
    | none => .vUndef
  else .vUndef

mutual
/-- Recursive condition evaluation (`GateEvaluator.evaluateCondition`).
The variable value is read up front exactly as in the source.  The
switch on the operator string ends in a permissive `default: true`. -/
def evaluateCondition (ws : WorldState) (agentId : Option String) : GateCondition → Bool
  | .mk operator variableId value children =>
    let varValue : Value := condVarValue ws variableId
    let litValue : Value := value.getD .vUndef
    match operator with
    | "EQ" => jsStrictEq varValue litValue
    | "NEQ" => !jsStrictEq varValue litValue
    | "GT" => jsGt varValue litValue
    | "GTE" => jsGe varValue litValue
    | "LT" => jsLt varValue litValue
    | "LTE" => jsLe varValue litValue
    | "CONTAINS" =>
      match varValue with
      | .vArr l => jsIncludes l litValue
      | _ => false
    | "NOT_CONTAINS" =>
      match varValue with
      | .vArr l => !jsIncludes l litValue
      | _ => true
    | "EXISTS" =>
      match varValue with
      | .vUndef => false
      | .vNull => false
      | _ => true
    | "NOT_EXISTS" =>
      match varValue with
      | .vUndef => true
      | .vNull => true
      | _ => false
    | "AND" => evalConditionAll ws agentId children
    | "OR" => evalConditionAny ws agentId children
    | "NOT" =>
      match children with
      | [] => true
      | c :: _ => !evaluateCondition ws agentId c
    | _ => true

/-- Conjunction over children, the `(children ?? []).every(...)` call. -/
def evalConditionAll (ws : WorldState) (agentId : Option String) : List GateCondition → Bool
  | [] => true
  | c :: cs => evaluateCondition ws agentId c && evalConditionAll ws agentId cs

/-- Disjunction over children, the `(children ?? []).some(...)` call. -/
def evalConditionAny (ws : WorldState) (agentId : Option String) : List GateCondition → Bool
  | [] => false
  | c :: cs => evaluateCondition ws agentId c || evalConditionAny ws agentId cs
end

/-- Gate lookup and evaluation (`GateEvaluator.evaluate`): an unknown
gate id is open by default. -/
def evaluate (sw : Storyworld) (gateId : String) (ws : WorldState)
    (agentId : Option String) : Bool :=
  match sw.gates.find? (fun g => g.id == gateId) with
  | none => true
  | some g => evaluateCondition ws agentId g.condition

/-- Operator strings handled by a non-default branch of the evaluator
switch. -/
def definedGateOperators : List String :=
  ["EQ", "NEQ", "GT", "GTE", "LT", "LTE", "CONTAINS", "NOT_CONTAINS",
   "EXISTS", "NOT_EXISTS", "AND", "OR", "NOT"]

-- ==========================================================================
-- Agent View Builder (engine.ts, class ViewBuilder)
-- ==========================================================================

/-- Narrative event (`NarrativeEventSchema`) restricted to the fields
the view builder reads; `gateId`, `recipientId`, `messageContent`,
`payload` and `timestamp` are never consulted here and are omitted. -/
structure NarrativeEvent where
  id : String
  simulationId : String
  frame : Nat
  eventType : String
  agentId : Option String
  spoolId : Option String
  encounterId : Option String
  choiceId : Option String
  variableId : Option String

/-- Entry of the `availableSpools` list of an agent view. -/
structure SpoolRef where
  spoolId : String
  spoolName : String
  description : String

/-- Entry of the `recentHistory` list of an agent view. -/
structure HistoryEntry where
  frame : Nat
  event : String
  summary : String

/-- Epistemically isolated per-agent projection (`AgentViewSchema`);
`privateMemory` is never populated by the engine and is omitted. -/
structure AgentView where
  agentId : String
  simulationId : String
  frame : Nat
  visibleVariables : List VariableState
  availableSpools : List SpoolRef
  activeSpools : List SpoolProgress
  currentEncounter : Option Encounter
  availableChoices : List Choice
  recentHistory : List HistoryEntry

/-- Variable filter of `ViewBuilder.getVisibleVariables`: keep a state
iff the first variable definition with its id has scope GLOBAL or
AGENT; states with no matching definition are dropped. -/
def getVisibleVariables (sw : Storyworld) (_agentId : String) (ws : WorldState) :
    List VariableState :=
  ws.getAllVariables.filter (fun v =>
    match sw.varDefs.find? (fun vd => vd.id == v.variableId) with
    | none => false
    | some vd => vd.scope == Scope.GLOBAL || vd.scope == Scope.AGENT)

/-- Spool filter of `ViewBuilder.getAvailableSpools`: spools not in the
agent's progress list whose entry gate, if any, evaluates true. -/
def getAvailableSpools (sw : Storyworld) (agentId : String) (ws : WorldState) :
    List SpoolRef :=
  let activeSpoolIds := (ws.getAgentSpools agentId).map (fun p => p.spoolId)
  (sw.spools.filter (fun spool =>
    if activeSpoolIds.contains spool.id then false
    else if strTruthy spool.entryGateId then
      evaluate sw (spool.entryGateId.getD "") ws (some agentId)
    else true)).map (fun spool =>
      { spoolId := spool.id, spoolName := spool.name, description := spool.description })

/-- Current encounter resolution (`ViewBuilder.getCurrentEncounter`):
the first progress entry with a truthy current-encounter id that
resolves to an existing encounter wins; the loop does not look at
the entry's status. -/
def getCurrentEncounter (sw : Storyworld) (agentId : String) :
    List SpoolProgress → Option Encounter
  | [] => none
  | progress :: rest =>
    if strTruthy progress.currentEncounterId then
      match sw.encounters.find? (fun e => e.id == progress.currentEncounterId.getD "") with
      | some encounter => some encounter
      | none => getCurrentEncounter sw agentId rest
    else getCurrentEncounter sw agentId rest

/-- Choice filter of `ViewBuilder.getAvailableChoices`: keep choices
with no gate or whose gate evaluates true. -/
def getAvailableChoices (sw : Storyworld) (encounter : Encounter) (ws : WorldState)
    (agentId : String) : List Choice :=
  encounter.choices.filter (fun choice =>
    if strTruthy choice.gateId then evaluate sw (choice.gateId.getD "") ws (some agentId)
    else true)

/-- Reading of an optional string inside a template literal: an absent
value prints as the string "undefined". -/
def optionStr (o : Option String) : String :=
  match o with
  | some s => s
  | none => "undefined"

/-- One-line event summary (`ViewBuilder.summarizeEvent`). -/
def summarizeEvent (event : NarrativeEvent) : String :=
  match event.eventType with
  | "CHOICE_MADE" => "Made choice in " ++ optionStr event.encounterId
  | "SPOOL_ENTERED" => "Entered narrative thread: " ++ optionStr event.spoolId
  | "SPOOL_COMPLETED" => "Completed narrative thread: " ++ optionStr event.spoolId
  | "VARIABLE_CHANGED" => "World state changed: " ++ optionStr event.variableId
  | _ => event.eventType

/-- History construction (`ViewBuilder.buildRecentHistory`): keep
events whose actor is this agent or whose actor field is falsy, take
the last ten, and summarise each. -/
def buildRecentHistory (agentId : String) (events : List NarrativeEvent) :
    List HistoryEntry :=
  (jsSliceLast 10 (events.filter (fun e =>
      e.agentId == some agentId || !strTruthy e.agentId))).map (fun e =>
    { frame := e.frame, event := e.eventType, summary := summarizeEvent e })

/-- View assembly (`ViewBuilder.buildView`). -/
def buildView (sw : Storyworld) (agentId : String) (simulationId : String)
    (ws : WorldState) (recentEvents : List NarrativeEvent) : AgentView :=
  let frame := ws.frame
  let visibleVariables := getVisibleVariables sw agentId ws
  let availableSpools := getAvailableSpools sw agentId ws
  let activeSpools := ws.getAgentSpools agentId
  let currentEncounter := getCurrentEncounter sw agentId activeSpools
  let availableChoices :=
    match currentEncounter with
    | some encounter => getAvailableChoices sw encounter ws agentId
    | none => []
  let recentHistory := buildRecentHistory agentId recentEvents
  { agentId := agentId
    simulationId := simulationId
    frame := frame
    visibleVariables := visibleVariables
    availableSpools := availableSpools
    activeSpools := activeSpools
    currentEncounter := currentEncounter
    availableChoices := availableChoices
    recentHistory := recentHistory }

-- ==========================================================================
-- Simulation Engine (engine.ts, class SimulationEngine)
-- ==========================================================================

/-- Simulation lifecycle status (`SimulationStatusSchema`). -/
inductive SimulationStatus where
  | INITIALIZING
  | RUNNING
  | PAUSED
  | COMPLETED
  | ABORTED
  | ANALYZING
deriving DecidableEq

/-- Agent slot (`AgentSlotSchema`) restricted to the fields the engine
reads: identity and activity. -/
structure AgentSlot where
  id : String
  name : String
  agentType : String
  isActive : Bool
  joinedAtFrame : Nat

/-- Simulation record (`SimulationSchema`); the `config` copy stored on
the simulation is never read back by the engine and is omitted. -/
structure Simulation where
  id : String
  experimentId : Option String
  name : String
  storyworldIds : List String
  agents : List AgentSlot
  status : SimulationStatus
  currentFrame : Nat

/-- Unified log entry (`SimulationEventSchema`); the `timestamp` is a
wall-clock `Date` never read back and is omitted. -/
structure SimulationEvent where
  id : String
  simulationId : String
  frame : Nat
  stage : String
  category : String
  eventType : String
  actorId : Option String
  targetId : Option String
  payload : List (String × Value)

/-- Entry of an agent's SAE choice ledger
(`SessionOutcome.choiceSequence` element). -/
structure ChoiceRecord where
  frame : Nat
  encounterId : String
  choiceId : String
  availableChoices : List String
  choiceIndex : Int

/-- Per-agent session tracking state (`SimulationEngine.sessionData`
entry). -/
structure SessionData where
  startFrame : Nat
  choices : List ChoiceRecord

/-- Exported per-agent summary (`SessionOutcomeSchema`); the optional
`metrics` and `priorSessionIds` fields are never populated. -/
structure SessionOutcome where
  sessionId : String
  agentId : String
  simulationId : String
  storyworldId : String
  startFrame : Nat
  endFrame : Nat
  totalChoices : Nat
  spoolsEntered : List String
  spoolsCompleted : List String
  endingsReached : List String
  finalVariableState : List VariableState
  choiceSequence : List ChoiceRecord

/-- Engine configuration (`EngineConfig`): only `maxFrames` and
`snapshotInterval` influence the embedded control flow; the timeout is
part of the callback boundary and the two boolean flags are never read
by the engine logic. -/
structure EngineConfig where
  maxFrames : Nat
  snapshotInterval : Nat

/-- Engine state: the simulation record, loaded storyworlds with their
world states, the unified event log, per-agent session ledgers, the
configuration, and the fresh-name counter standing for the `uuid()`
supply. -/
structure Engine where
  simulation : Simulation
  storyworlds : List (String × Storyworld)
  worldStates : List (String × WorldState)
  events : List SimulationEvent
  sessionData : List (String × SessionData)
  config : EngineConfig
  uuidCounter : Nat

/-- Deterministic fresh name standing for one `uuid()` draw. -/
def uuidStr (n : Nat) : String :=
  "uuid-" ++ toString n

/-- Event emission (`SimulationEngine.emitEvent`): appends one event
carrying the current frame, stage RESOLUTION and a fresh id.  Listener
callbacks have no effect on engine state and are not modelled. -/
def Engine.emitEvent (e : Engine) (category eventType : String)
    (payload : List (String × Value)) (actorId targetId : Option String) : Engine :=
  let event : SimulationEvent :=
    { id := uuidStr e.uuidCounter
      simulationId := e.simulation.id
      frame := e.simulation.currentFrame
      stage := "RESOLUTION"
      category := category
      eventType := eventType
      actorId := actorId
      targetId := targetId
      payload := payload }
  { e with events := e.events ++ [event], uuidCounter := e.uuidCounter + 1 }

/-- Storyworld loading (`SimulationEngine.loadStoryworld`): registers
the storyworld and a fresh world state under its id. -/
def Engine.loadStoryworld (e : Engine) (sw : Storyworld) : Engine :=
  { e with
    storyworlds := mapSet e.storyworlds sw.id sw
    worldStates := mapSet e.worldStates sw.id (WorldState.ofStoryworld sw) }

/-- View construction for one agent
(`SimulationEngine.buildAgentView`): the first storyworld id is used;
a missing storyworld raises.  The recent events are filtered to this
agent's (or actor-less) events, cut to the last twenty, and cast
unchecked to narrative events: `SimulationEvent` has no `agentId`,
`spoolId`, `encounterId`, `choiceId` or `variableId` properties, so
all those fields read as `undefined` after the cast. -/
def Engine.buildAgentView (e : Engine) (agentId : String) : Except String AgentView :=
  match e.simulation.storyworldIds.head? with
  | none => .error "Storyworld not loaded"
  | some storyworldId =>
    match mapGet e.storyworlds storyworldId, mapGet e.worldStates storyworldId with
    | some sw, some ws =>
      let recentEvents :=
        (jsSliceLast 20 (e.events.filter (fun ev =>
          ev.actorId == some agentId || !strTruthy ev.actorId))).map (fun ev =>
            ({ id := ev.id, simulationId := ev.simulationId, frame := ev.frame
               eventType := ev.eventType, agentId := none, spoolId := none
               encounterId := none, choiceId := none, variableId := none } : NarrativeEvent))
      .ok (buildView sw agentId e.simulation.id ws recentEvents)
    | _, _ => .error "Storyworld not loaded"

/-- Linear scan for a choice id over all encounters, the lookup loop at
the top of `SimulationEngine.processChoice`: the first encounter whose
choice list contains the id wins. -/
def findChoiceInEncounters (choiceId : String) : List Encounter → Option (Encounter × Choice)
  | [] => none
  | encounter :: rest =>
    match encounter.choices.find? (fun c => c.id == choiceId) with
    | some choice => some (encounter, choice)
    | none => findChoiceInEncounters choiceId rest

/-- Ledger entry pushed by `processChoice`: the full static choice-id
list of the owning encounter and the index of the chosen id within it. -/
def recordedEntry (e : Engine) (encounter : Encounter) (choice : Choice)
    (choiceId : String) : ChoiceRecord :=
  { frame := e.simulation.currentFrame
    encounterId := encounter.id
    choiceId := choice.id
    availableChoices := encounter.choices.map (fun c => c.id)
    choiceIndex := jsFindIndex (fun c => c.id == choiceId) encounter.choices }

/-- Ledger push of `processChoice`. -/
def Engine.recordSessionChoice (e : Engine) (agentId : String) (encounter : Encounter)
    (choice : Choice) (choiceId : String) : Engine :=
  match mapGet e.sessionData agentId with
  | none => e
  | some sd =>
    let sd1 : SessionData :=
      { sd with choices := sd.choices ++ [recordedEntry e encounter choice choiceId] }
    { e with sessionData := mapSet e.sessionData agentId sd1 }

/-- Application of one mutation inside `processChoice`: mutate the
world state under the given storyworld id, then emit one
VARIABLE_CHANGED event. -/
def Engine.applyOneMutation (e : Engine) (storyworldId agentId : String)
    (m : VariableMutation) : Engine :=
  let e1 :=
    match mapGet e.worldStates storyworldId with
    | none => e
    | some ws =>
      { e with worldStates := mapSet e.worldStates storyworldId (ws.applyMutation m agentId) }
  e1.emitEvent "STATE" "VARIABLE_CHANGED"
    [("variableId", .vStr m.variableId), ("operation", .vStr m.operation), ("value", m.value)]
    (some agentId) none

/-- Mutation loop of `processChoice`, in declaration order. -/
def Engine.applyChoiceMutations (e : Engine) (storyworldId agentId : String) :
    List VariableMutation → Engine
  | [] => e
  | m :: ms => (e.applyOneMutation storyworldId agentId m).applyChoiceMutations storyworldId agentId ms

/-- Spool completion (`SimulationEngine.completeSpool`): every progress
entry of the agent for the given spool becomes COMPLETED at the
current frame; one SPOOL_COMPLETED event is emitted. -/
def Engine.completeSpool (e : Engine) (agentId spoolId : String) : Engine :=
  let e1 :=
    match e.simulation.storyworldIds.head? with
    | none => e
    | some storyworldId =>
      match mapGet e.worldStates storyworldId with
      | none => e
      | some ws =>
        let updated := (ws.getAgentSpools agentId).map (fun (p : SpoolProgress) =>
          if p.spoolId == spoolId then
            { p with status := SpoolStatus.COMPLETED,
                     completedAtFrame := some e.simulation.currentFrame }
          else p)
        { e with worldStates := mapSet e.worldStates storyworldId (ws.setAgentSpools agentId updated) }
  e1.emitEvent "NARRATIVE" "SPOOL_COMPLETED" [("spoolId", .vStr spoolId)] (some agentId) none

/-- Encounter transition (`SimulationEngine.advanceToEncounter`): every
ACTIVE progress entry of the agent has its current-encounter id set to
the target; one ENCOUNTER_STARTED event is emitted. -/
def Engine.advanceToEncounter (e : Engine) (agentId encounterId : String) : Engine :=
  let e1 :=
    match e.simulation.storyworldIds.head? with
    | none => e
    | some storyworldId =>
      match mapGet e.worldStates storyworldId with
      | none => e
      | some ws =>
        let updated := (ws.getAgentSpools agentId).map (fun (p : SpoolProgress) =>
          if p.status == SpoolStatus.ACTIVE then { p with currentEncounterId := some encounterId }
          else p)
        { e with worldStates := mapSet e.worldStates storyworldId (ws.setAgentSpools agentId updated) }
  e1.emitEvent "NARRATIVE" "ENCOUNTER_STARTED" [("encounterId", .vStr encounterId)] (some agentId) none

/-- Spool entry (`SimulationEngine.enterSpool`): an unknown spool id is
a silent no-op; otherwise a fresh ACTIVE progress entry starting at the
spool's entry encounter is appended and SPOOL_ENTERED is emitted. -/
def Engine.enterSpool (e : Engine) (agentId spoolId : String) : Engine :=
  match e.simulation.storyworldIds.head? with
  | none => e
  | some storyworldId =>
    match mapGet e.storyworlds storyworldId, mapGet e.worldStates storyworldId with
    | some sw, some ws =>
      match sw.spools.find? (fun s => s.id == spoolId) with
      | none => e
      | some spool =>
        let progress : SpoolProgress :=
          { spoolId := spoolId
            agentId := agentId
            status := SpoolStatus.ACTIVE
            currentEncounterId := some spool.entryEncounterId
            enteredAtFrame := e.simulation.currentFrame
            completedAtFrame := none
            choiceHistory := [] }
        let agentSpools := ws.getAgentSpools agentId
        let ws1 := ws.setAgentSpools agentId (agentSpools ++ [progress])
        let e1 := { e with worldStates := mapSet e.worldStates storyworldId ws1 }
        e1.emitEvent "NARRATIVE" "SPOOL_ENTERED" [("spoolId", .vStr spoolId)] (some agentId) none
    | _, _ => e

/-- Application phase of `processChoice` once the choice is located:
record it in the ledger, apply its mutations in order, emit
CHOICE_MADE, then perform exactly one narrative transition (terminal,
next encounter, or next spool, in that priority). -/
def Engine.applyFoundChoice (e : Engine) (storyworldId agentId choiceId : String)
    (foundEncounter : Encounter) (foundChoice : Choice) : Engine :=
  let e1 := e.recordSessionChoice agentId foundEncounter foundChoice choiceId
  let e2 := e1.applyChoiceMutations storyworldId agentId foundChoice.mutations
  let e3 := e2.emitEvent "NARRATIVE" "CHOICE_MADE"
    [("encounterId", .vStr foundEncounter.id), ("choiceId", .vStr foundChoice.id),
     ("choiceText", .vStr foundChoice.text)] (some agentId) none
  if foundChoice.isTerminal.getD false then
    e3.completeSpool agentId foundEncounter.spoolId
  else if strTruthy foundChoice.nextEncounterId then
    e3.advanceToEncounter agentId (foundChoice.nextEncounterId.getD "")
  else if strTruthy foundChoice.nextSpoolId then
    e3.enterSpool agentId (foundChoice.nextSpoolId.getD "")
  else e3

/-- Choice resolution (`SimulationEngine.processChoice`).  An id absent
from every encounter emits INVALID_CHOICE and stops; otherwise the
located choice is applied unconditionally. -/
def Engine.processChoice (e : Engine) (agentId choiceId : String) : Engine :=
  match e.simulation.storyworldIds.head? with
  | none => e
  | some storyworldId =>
    match mapGet e.storyworlds storyworldId, mapGet e.worldStates storyworldId with
    | some sw, some _ws =>
      match findChoiceInEncounters choiceId sw.encounters with
      | none => e.emitEvent "SYSTEM" "INVALID_CHOICE" [("choiceId", .vStr choiceId)] (some agentId) none
      | some (foundEncounter, foundChoice) =>
        e.applyFoundChoice storyworldId agentId choiceId foundEncounter foundChoice
    | _, _ => e

/-- Decision of the external agent callback for one frame: an optional
choice id and an optional message (`AgentActionHandler` result). -/
structure ActionRequest where
  choiceId : Option String
  message : Option String

/-- External decision callback.  A timeout or thrown error of the
original asynchronous callback is modelled as an `error` result. -/
abbrev ActionHandler := String → AgentView → Except String (Option ActionRequest)

/-- Completion (`SimulationEngine.complete`): status moves to COMPLETED
and one SIMULATION_COMPLETED event is emitted.  The `completedAt`
wall-clock stamp is omitted. -/
def Engine.complete (e : Engine) (reason : Option String) : Engine :=
  let payloadValue : Value :=
    match reason with
    | some r => .vStr r
    | none => .vUndef
  let e1 := { e with simulation := { e.simulation with status := SimulationStatus.COMPLETED } }
  e1.emitEvent "SYSTEM" "SIMULATION_COMPLETED" [("reason", payloadValue)] none none

/-- Snapshot capture (`SimulationEngine.takeSnapshot`): the snapshot is
assembled and returned but never stored by the engine, so the only
engine-state effect is one `uuid()` draw. -/
def Engine.takeSnapshot (e : Engine) : Engine :=
  { e with uuidCounter := e.uuidCounter + 1 }

/-- OBSERVATION stage of `executeFrame`: per active agent, build the
view (a missing storyworld propagates as an error) and emit one
VIEW_DELIVERED event; inactive agents are skipped. -/
def Engine.observeAgents (e : Engine) :
    List AgentSlot → Except String (Engine × List (String × AgentView))
  | [] => .ok (e, [])
  | agent :: rest =>
    if agent.isActive then
      match e.buildAgentView agent.id with
      | .error msg => .error msg
      | .ok view =>
        let e1 := e.emitEvent "SYSTEM" "VIEW_DELIVERED"
          [("agentId", .vStr agent.id),
           ("hasEncounter", .vBool view.currentEncounter.isSome),
           ("choiceCount", .vNum (view.availableChoices.length : Int))]
          (some agent.id) none
        match e1.observeAgents rest with
        | .error msg => .error msg
        | .ok (e2, views) => .ok (e2, (agent.id, view) :: views)
    else e.observeAgents rest

/-- ACTION stage of `executeFrame`: per active agent with a delivered
view, invoke the callback; an error result emits AGENT_ERROR and drops
the agent's action for this frame only. -/
def Engine.collectActions (e : Engine) (handler : ActionHandler)
    (views : List (String × AgentView)) :
    List AgentSlot → Engine × List (String × ActionRequest)
  | [] => (e, [])
  | agent :: rest =>
    if agent.isActive then
      match mapGet views agent.id with
      | none => e.collectActions handler views rest
      | some view =>
        match handler agent.id view with
        | .error msg =>
          let e1 := e.emitEvent "SYSTEM" "AGENT_ERROR"
            [("agentId", .vStr agent.id), ("error", .vStr msg)] (some agent.id) none
          e1.collectActions handler views rest
        | .ok none => e.collectActions handler views rest
        | .ok (some action) =>
          let (e1, actions) := e.collectActions handler views rest
          (e1, (agent.id, action) :: actions)
    else e.collectActions handler views rest

/-- RESOLUTION stage of `executeFrame`: process each collected action
in order; a truthy choice id is resolved and a truthy message emits a
MESSAGE_SENT event on the narrative channel. -/
def Engine.resolveActions (e : Engine) : List (String × ActionRequest) → Engine
  | [] => e
  | (agentId, action) :: rest =>
    let e1 :=
      if strTruthy action.choiceId then e.processChoice agentId (action.choiceId.getD "")
      else e
    let e2 :=
      if strTruthy action.message then
        e1.emitEvent "COMMUNICATION" "MESSAGE_SENT"
          [("content", .vStr (action.message.getD "")), ("channel", .vStr "NARRATIVE")]
          (some agentId) none
      else e1
    e2.resolveActions rest

/-- TRANSITION stage of `executeFrame`: every loaded world state
advances its frame counter and the simulation's current frame
increments. -/
def Engine.transitionFrame (e : Engine) : Engine :=
  { e with
    worldStates := e.worldStates.map (fun p => (p.1, p.2.advanceFrame))
    simulation := { e.simulation with currentFrame := e.simulation.currentFrame + 1 } }

/-- Tail of `executeFrame` after the transition: the max-frames
completion check, then the snapshot-interval check. -/
def Engine.finishFrame (e : Engine) : Engine :=
  let e5 :=
    if e.config.maxFrames ≤ e.simulation.currentFrame then
      e.complete (some "Max frames reached")
    else e
  if 0 < e5.config.snapshotInterval
      && e5.simulation.currentFrame % e5.config.snapshotInterval == 0 then
    e5.takeSnapshot
  else e5

/-- One frame (`SimulationEngine.executeFrame`): refuse unless RUNNING,
then observation, action collection, resolution, transition, the
max-frames completion check, and the snapshot-interval check. -/
def Engine.executeFrame (e : Engine) (handler : ActionHandler) : Except String Engine :=
  if e.simulation.status = SimulationStatus.RUNNING then
    match e.observeAgents e.simulation.agents with
    | .error msg => .error msg
    | .ok (e1, views) =>
      let (e2, actions) := e1.collectActions handler views e1.simulation.agents
      .ok ((e2.resolveActions actions).transitionFrame.finishFrame)
  else .error "Simulation not running"

/-- Export loop of `SimulationEngine.exportSessionOutcomes` over the
agent list, threading the `uuid()` supply: one outcome (and one fresh
session id) per agent that has session data. -/
def Engine.exportOutcomesFrom (e : Engine) (uuidStart : Nat) :
    List AgentSlot → List SessionOutcome
  | [] => []
  | agent :: rest =>
    match mapGet e.sessionData agent.id with
    | none => e.exportOutcomesFrom uuidStart rest
    | some sd =>
      let wsOpt : Option WorldState :=
        match e.simulation.storyworldIds.head? with
        | none => none
        | some storyworldId => mapGet e.worldStates storyworldId
      let agentSpools : List SpoolProgress :=
        match wsOpt with
        | none => []
        | some ws => ws.getAgentSpools agent.id
      let finalVars : List VariableState :=
        match wsOpt with
        | none => []
        | some ws => ws.getAllVariables
      let outcome : SessionOutcome :=
        { sessionId := uuidStr uuidStart
          agentId := agent.id
          simulationId := e.simulation.id
          storyworldId := (e.simulation.storyworldIds.head?).getD ""
          startFrame := sd.startFrame
          endFrame := e.simulation.currentFrame
          totalChoices := sd.choices.length
          spoolsEntered := agentSpools.map (fun p => p.spoolId)
          spoolsCompleted := (agentSpools.filter
            (fun p => p.status == SpoolStatus.COMPLETED)).map (fun p => p.spoolId)
          endingsReached := []
          finalVariableState := finalVars
          choiceSequence := sd.choices }
      outcome :: e.exportOutcomesFrom (uuidStart + 1) rest

/-- Session export (`SimulationEngine.exportSessionOutcomes`), given
the position of the `uuid()` supply at call time. -/
def Engine.exportSessionOutcomes (e : Engine) (uuidStart : Nat) : List SessionOutcome :=
  e.exportOutcomesFrom uuidStart e.simulation.agents

/-- Empty world state used by concrete instances below. -/
def wsEmpty : WorldState :=
  { varStates := [], spoolProgress := [], frame := 0 }

/-- Encounter fixture for the C8 counterexample. -/
def encPlain : Encounter :=
  { id := "e1", spoolId := "s1", name := "one", description := "", participants := []
    choices := [], gateId := none }

/-- Storyworld fixture for the C8 counterexample. -/
def swPlain : Storyworld :=
  { id := "w", name := "w", version := "1", description := "", varDefs := []
    gates := [], spools := [], encounters := [encPlain] }

/-- Progress fixture for the C8 counterexample: a COMPLETED spool whose
current-encounter id is still set ("completeSpool" never clears it). -/
def progCompleted : SpoolProgress :=
  { spoolId := "s1", agentId := "a", status := SpoolStatus.COMPLETED
    currentEncounterId := some "e1", enteredAtFrame := 0, completedAtFrame := some 1
    choiceHistory := [] }

-- ==========================================================================
-- Concrete fixture used by witnesses and counterexamples
-- ==========================================================================

/-- Fixture variable: a GLOBAL NUMBER with default 50. -/
def varTrust : Variable :=
  { id := "trust_level", name := "Trust", vtype := "NUMBER", scope := Scope.GLOBAL
    defaultValue := .vNum 50 }

/-- Fixture variable: a DYADIC variable, invisible to every view. -/
def varSecret : Variable :=
  { id := "secret_pact", name := "Secret", vtype := "BOOLEAN", scope := Scope.DYADIC
    defaultValue := .vBool false }

/-- Fixture gate that is false at the default variable values. -/
def gateNever : Gate :=
  { id := "g_never", name := "never"
    condition := .mk "EQ" (some "trust_level") (some (.vNum 999)) [] }

/-- Fixture choice: gated by `g_never`, adds 25 to the trust variable
and leads to encounter "e2". -/
def choiceGo : Choice :=
  { id := "c_go", text := "go", gateId := some "g_never"
    mutations := [{ variableId := "trust_level", operation := "ADD", value := .vNum 25
                    targetAgent := none }]
    nextEncounterId := some "e2", nextSpoolId := none, isTerminal := none }

/-- Fixture choice: terminal, no mutations. -/
def choiceEnd : Choice :=
  { id := "c_end", text := "end", gateId := none, mutations := []
    nextEncounterId := none, nextSpoolId := none, isTerminal := some true }

/-- Fixture encounter holding both choices. -/
def encOne : Encounter :=
  { id := "e1", spoolId := "s1", name := "one", description := "", participants := []
    choices := [choiceGo, choiceEnd], gateId := none }

/-- Fixture follow-up encounter. -/
def encTwo : Encounter :=
  { id := "e2", spoolId := "s1", name := "two", description := "", participants := []
    choices := [choiceEnd], gateId := none }

/-- Fixture spool containing the two encounters. -/
def spoolOne : Spool :=
  { id := "s1", name := "one", description := "", entryGateId := none
    entryEncounterId := "e1", encounters := ["e1", "e2"] }

/-- Second fixture spool. -/
def spoolTwo : Spool :=
  { id := "s2", name := "two", description := "", entryGateId := none
    entryEncounterId := "eX", encounters := ["eX"] }

/-- Fixture storyworld. -/
def swFix : Storyworld :=
  { id := "w", name := "fixture", version := "1", description := ""
    varDefs := [varTrust, varSecret], gates := [gateNever]
    spools := [spoolOne, spoolTwo], encounters := [encOne, encTwo] }

/-- Fixture agent slot. -/
def agentA : AgentSlot :=
  { id := "a", name := "A", agentType := "SCRIPTED", isActive := true, joinedAtFrame := 0 }

/-- Fixture simulation in RUNNING state. -/
def simBase : Simulation :=
  { id := "sim", experimentId := none, name := "base", storyworldIds := ["w"]
    agents := [agentA], status := SimulationStatus.RUNNING, currentFrame := 0 }

/-- Fixture engine: fixture storyworld loaded, one active agent with an
empty session ledger. -/
def engBase : Engine :=
  { simulation := simBase
    storyworlds := [("w", swFix)]
    worldStates := [("w", WorldState.ofStoryworld swFix)]
    events := []
    sessionData := [("a", { startFrame := 0, choices := [] })]
    config := { maxFrames := 100, snapshotInterval := 0 }
    uuidCounter := 0 }

/-- First ACTIVE progress fixture for the C7 counterexample. -/
def progActiveOne : SpoolProgress :=
  { spoolId := "s1", agentId := "a", status := SpoolStatus.ACTIVE
    currentEncounterId := some "e1", enteredAtFrame := 0, completedAtFrame := none
    choiceHistory := [] }

/-- Second ACTIVE progress fixture for the C7 counterexample. -/
def progActiveTwo : SpoolProgress :=
  { spoolId := "s2", agentId := "a", status := SpoolStatus.ACTIVE
    currentEncounterId := some "eX", enteredAtFrame := 0, completedAtFrame := none
    choiceHistory := [] }

/-- World state fixture with two ACTIVE spools for agent "a". -/
def wsTwoActive : WorldState :=
  { WorldState.ofStoryworld swFix with
    spoolProgress := [("a", [progActiveOne, progActiveTwo])] }

/-- Engine fixture with two ACTIVE spools for agent "a". -/
def engTwoActive : Engine :=
  { engBase with worldStates := [("w", wsTwoActive)] }

/-- Current-encounter ids of one agent's progress entries, as read from
one loaded world state. -/
def agentSpoolEncounterIds (e : Engine) (storyworldId agentId : String) :
    List (Option String) :=
  match mapGet e.worldStates storyworldId with
  | none => []
  | some ws => (ws.getAgentSpools agentId).map (fun p => p.currentEncounterId)

/-- Copy of a session outcome with its freshly drawn session id erased. -/
def stripSessionId (o : SessionOutcome) : SessionOutcome :=
  { o with sessionId := "" }

/-- Frame counters of the loaded world states, keyed by storyworld id. -/
def frameStamp (m : List (String × WorldState)) : List (String × Nat) :=
  m.map (fun p => (p.1, p.2.frame))

/-- Trivial decision callback: every agent acts with no choice and no
message. -/
def handlerNone : ActionHandler :=
  fun _ _ => .ok none

/-- Result of one frame of the fixture engine under the trivial
callback. -/
def engBaseAfterFrame : Engine :=
  match engBase.executeFrame handlerNone with
  | .ok e => e
  | .error _ => engBase

-- ==========================================================================
-- General lemmas about the embedded operations
-- ==========================================================================

theorem mapGet_mapSet_self {α : Type} (m : List (String × α)) (k : String) (v : α) :
    mapGet (mapSet m k v) k = some v := by
  induction m with
  | nil => simp [mapGet, mapSet]
  | cons p rest ih =>
    by_cases h : p.1 = k
    · simp [mapGet, mapSet, h]
    · simp [mapGet, mapSet, h, ih]

mutual
theorem evaluateCondition_agent_free (c : GateCondition) (ws : WorldState)
    (a1 a2 : Option String) :
    evaluateCondition ws a1 c = evaluateCondition ws a2 c := by
  cases c with
  | mk op varId val children =>
    rw [evaluateCondition.eq_def, evaluateCondition.eq_def]
    dsimp only
    split
    · rfl
    · rfl
    · rfl
    · rfl
    · rfl
    · rfl
    · rfl
    · rfl
    · rfl
    · rfl
    · exact evalConditionAll_agent_free children ws a1 a2
    · exact evalConditionAny_agent_free children ws a1 a2
    · cases children with
      | nil => rfl
      | cons hd tl => exact congrArg (fun b => !b) (evaluateCondition_agent_free hd ws a1 a2)
    · rfl

theorem evalConditionAll_agent_free (l : List GateCondition) (ws : WorldState)
    (a1 a2 : Option String) :
    evalConditionAll ws a1 l = evalConditionAll ws a2 l := by
  cases l with
  | nil => rfl
  | cons hd tl =>
    rw [evalConditionAll, evalConditionAll, evaluateCondition_agent_free hd ws a1 a2,
      evalConditionAll_agent_free tl ws a1 a2]

theorem evalConditionAny_agent_free (l : List GateCondition) (ws : WorldState)
    (a1 a2 : Option String) :
    evalConditionAny ws a1 l = evalConditionAny ws a2 l := by
  cases l with
  | nil => rfl
  | cons hd tl =>
    rw [evalConditionAny, evalConditionAny, evaluateCondition_agent_free hd ws a1 a2,
      evalConditionAny_agent_free tl ws a1 a2]
end

-- ==========================================================================
-- Claim theorems
-- ==========================================================================

/-- C10: gate evaluation is agent-independent.  For every gate id, gate
condition and world state, `evaluateCondition` and `evaluate` return
the same boolean for any two agent-id arguments: the agent-id
parameter is threaded through every recursive call but never consulted
in any branch, so spool entry gates cannot distinguish which agent is
asking. -/
theorem gate_evaluation_agent_independent (sw : Storyworld) (gateId : String)
    (c : GateCondition) (ws : WorldState) (a1 a2 : Option String) :
    evaluateCondition ws a1 c = evaluateCondition ws a2 c
    ∧ evaluate sw gateId ws a1 = evaluate sw gateId ws a2 := by
  refine ⟨evaluateCondition_agent_free c ws a1 a2, ?_⟩
  unfold evaluate
  cases sw.gates.find? (fun g => g.id == gateId) with
  | none => rfl
  | some g => exact evaluateCondition_agent_free g.condition ws a1 a2

/-- C3 counterexample: an unknown operator ("FROB") and a NOT condition
with an empty child list both make `evaluateCondition` return `true`;
evaluation cannot fail at all (it is total and Bool-valued), so no
MalformedGate error is raised and both malformed conditions silently
pass, contrary to the claim. -/
theorem malformed_gate_silently_passes :
    evaluateCondition wsEmpty none (GateCondition.mk "FROB" none none []) = true
    ∧ evaluateCondition wsEmpty none (GateCondition.mk "NOT" none none []) = true :=
  ⟨rfl, rfl⟩

/-- C3 amended: condition evaluation never fails.  A condition whose
operator is outside the defined operator set evaluates to `true` (the
permissive default branch), and a NOT condition with an empty (in the
source: empty or missing) child list also evaluates to `true`. -/
theorem malformed_gate_evaluates_true (ws : WorldState) (aid : Option String)
    (c : GateCondition) (varId : Option String) (val : Option Value)
    (hop : c.operator ∉ definedGateOperators) :
    evaluateCondition ws aid c = true
    ∧ evaluateCondition ws aid (GateCondition.mk "NOT" varId val []) = true := by
  constructor
  · cases c with
    | mk op varId2 val2 children =>
      simp only [GateCondition.operator] at hop
      rw [evaluateCondition.eq_def]
      dsimp only
      split
      all_goals first
        | rfl
        | (exfalso; simp [definedGateOperators] at hop)
  · rfl

/-- Witness for the C3 amended theorem at the operator "FROB". -/
theorem malformed_gate_evaluates_true_witness :
    (GateCondition.mk "FROB" none none []).operator ∉ definedGateOperators
    ∧ (evaluateCondition wsEmpty none (GateCondition.mk "FROB" none none []) = true
       ∧ evaluateCondition wsEmpty none (GateCondition.mk "NOT" (some "x") (some (.vNum 1)) []) = true) :=
  ⟨by decide,
   malformed_gate_evaluates_true wsEmpty none (GateCondition.mk "FROB" none none [])
     (some "x") (some (.vNum 1)) (by decide)⟩

/-- C8 counterexample: a SpoolProgress entry whose status is COMPLETED
(not ACTIVE) supplies the current encounter, because
`getCurrentEncounter` never reads the status field. -/
theorem completed_spool_supplies_current_encounter :
    progCompleted.status = SpoolStatus.COMPLETED
    ∧ (getCurrentEncounter swPlain "a" [progCompleted]).map (fun e => e.id) = some "e1" :=
  ⟨rfl, rfl⟩

/-- C8 amended: the current encounter of an agent view is resolved from
the first SpoolProgress entry in the progress list — of any status —
whose current-encounter id is set (truthy) and resolves to an existing
encounter; the entry's status is never consulted, so non-ACTIVE
entries (e.g. COMPLETED ones with a stale current-encounter id) can
supply the current encounter. -/
theorem current_encounter_first_resolving_any_status (sw : Storyworld)
    (agentId : String) (l : List SpoolProgress) :
    getCurrentEncounter sw agentId l
      = l.findSome? (fun p =>
          if strTruthy p.currentEncounterId then
            sw.encounters.find? (fun e => e.id == p.currentEncounterId.getD "")
          else none) := by
  induction l with
  | nil => rfl
  | cons p rest ih =>
    rw [getCurrentEncounter, List.findSome?_cons]
    by_cases h : strTruthy p.currentEncounterId
    · simp only [h, if_pos]
      cases sw.encounters.find? (fun e => e.id == p.currentEncounterId.getD "") with
      | none => exact ih
      | some enc => rfl
    · simp only [h, if_neg]
      simp only [Bool.false_eq_true, if_false]
      exact ih

/-- C1: epistemic isolation of `buildView`.  The active-spool list is
exactly the agent's own progress list; every visible variable state is
justified by a declared variable whose scope is GLOBAL or AGENT (so no
DYADIC- or LOCAL-scoped state appears); and every recent-history entry
is the summary of an input event whose actor is this agent or whose
actor field is falsy — no value sourced from another agent's
SpoolProgress or history can enter the view. -/
theorem agent_view_epistemic_isolation (sw : Storyworld) (agentId simulationId : String)
    (ws : WorldState) (events : List NarrativeEvent) :
    (buildView sw agentId simulationId ws events).activeSpools = ws.getAgentSpools agentId
    ∧ (∀ vs ∈ (buildView sw agentId simulationId ws events).visibleVariables,
        ∃ vd, sw.varDefs.find? (fun d => d.id == vs.variableId) = some vd
          ∧ (vd.scope = Scope.GLOBAL ∨ vd.scope = Scope.AGENT))
    ∧ (∀ h ∈ (buildView sw agentId simulationId ws events).recentHistory,
        ∃ ev ∈ events, h.frame = ev.frame ∧ h.event = ev.eventType
          ∧ (ev.agentId = some agentId ∨ strTruthy ev.agentId = false)) := by
  refine ⟨rfl, ?_, ?_⟩
  · intro vs hvs
    have hmem := hvs
    simp only [buildView, getVisibleVariables] at hmem
    rw [List.mem_filter] at hmem
    obtain ⟨-, hpred⟩ := hmem
    cases hfind : sw.varDefs.find? (fun d => d.id == vs.variableId) with
    | none => rw [hfind] at hpred; exact absurd hpred (by simp)
    | some vd =>
      refine ⟨vd, rfl, ?_⟩
      rw [hfind] at hpred
      simp only [Bool.or_eq_true, beq_iff_eq] at hpred
      exact hpred
  · intro h hh
    simp only [buildView, buildRecentHistory] at hh
    rw [List.mem_map] at hh
    obtain ⟨ev, hev, hmap⟩ := hh
    have hev2 : ev ∈ (events.filter (fun e =>
        e.agentId == some agentId || !strTruthy e.agentId)) :=
      List.drop_subset _ _ hev
    rw [List.mem_filter] at hev2
    obtain ⟨hevents, hpred⟩ := hev2
    refine ⟨ev, hevents, ?_, ?_, ?_⟩
    · rw [← hmap]
    · rw [← hmap]
    · simp only [Bool.or_eq_true, beq_iff_eq, Bool.not_eq_true'] at hpred
      exact hpred

-- ==========================================================================
-- processChoice lemmas and claims C4, C5, C7, C9
-- ==========================================================================

theorem not_found_of_all_absent (choiceId : String) (encs : List Encounter)
    (h : ∀ enc ∈ encs, ∀ c ∈ enc.choices, c.id ≠ choiceId) :
    findChoiceInEncounters choiceId encs = none := by
  induction encs with
  | nil => rfl
  | cons enc rest ih =>
    rw [findChoiceInEncounters]
    have hfind : enc.choices.find? (fun c => c.id == choiceId) = none := by
      rw [List.find?_eq_none]
      intro c hc
      simp only [beq_iff_eq]
      exact h enc (List.mem_cons_self enc rest) c hc
    rw [hfind]
    exact ih (fun enc2 h2 => h enc2 (List.mem_cons_of_mem enc h2))

theorem processChoice_not_found (e : Engine) (agentId choiceId storyworldId : String)
    (sw : Storyworld) (ws : WorldState)
    (hsid : e.simulation.storyworldIds.head? = some storyworldId)
    (hsw : mapGet e.storyworlds storyworldId = some sw)
    (hws : mapGet e.worldStates storyworldId = some ws)
    (hfind : findChoiceInEncounters choiceId sw.encounters = none) :
    e.processChoice agentId choiceId
      = e.emitEvent "SYSTEM" "INVALID_CHOICE" [("choiceId", .vStr choiceId)]
          (some agentId) none := by
  simp only [Engine.processChoice, hsid, hsw, hws, hfind]

theorem processChoice_found (e : Engine) (agentId choiceId storyworldId : String)
    (sw : Storyworld) (ws : WorldState) (enc : Encounter) (ch : Choice)
    (hsid : e.simulation.storyworldIds.head? = some storyworldId)
    (hsw : mapGet e.storyworlds storyworldId = some sw)
    (hws : mapGet e.worldStates storyworldId = some ws)
    (hfound : findChoiceInEncounters choiceId sw.encounters = some (enc, ch)) :
    e.processChoice agentId choiceId
      = e.applyFoundChoice storyworldId agentId choiceId enc ch := by
  simp only [Engine.processChoice, hsid, hsw, hws, hfound]

theorem recordSessionChoice_parts (e : Engine) (agentId : String) (enc : Encounter)
    (ch : Choice) (choiceId : String) :
    (e.recordSessionChoice agentId enc ch choiceId).simulation = e.simulation
    ∧ (e.recordSessionChoice agentId enc ch choiceId).worldStates = e.worldStates
    ∧ (e.recordSessionChoice agentId enc ch choiceId).storyworlds = e.storyworlds
    ∧ (e.recordSessionChoice agentId enc ch choiceId).events = e.events := by
  unfold Engine.recordSessionChoice
  cases mapGet e.sessionData agentId with
  | none => exact ⟨rfl, rfl, rfl, rfl⟩
  | some sd => exact ⟨rfl, rfl, rfl, rfl⟩

theorem recordSessionChoice_ledger (e : Engine) (agentId : String) (enc : Encounter)
    (ch : Choice) (choiceId : String) (sd : SessionData)
    (hsd : mapGet e.sessionData agentId = some sd) :
    mapGet (e.recordSessionChoice agentId enc ch choiceId).sessionData agentId
      = some { sd with choices := sd.choices ++ [recordedEntry e enc ch choiceId] } := by
  unfold Engine.recordSessionChoice
  rw [hsd]
  exact mapGet_mapSet_self e.sessionData agentId _

theorem applyOneMutation_parts (e : Engine) (storyworldId agentId : String)
    (m : VariableMutation) :
    (e.applyOneMutation storyworldId agentId m).simulation = e.simulation
    ∧ (e.applyOneMutation storyworldId agentId m).sessionData = e.sessionData
    ∧ (e.applyOneMutation storyworldId agentId m).storyworlds = e.storyworlds := by
  unfold Engine.applyOneMutation
  cases mapGet e.worldStates storyworldId with
  | none => exact ⟨rfl, rfl, rfl⟩
  | some ws => exact ⟨rfl, rfl, rfl⟩

theorem applyOneMutation_ws (e : Engine) (storyworldId agentId : String)
    (m : VariableMutation) (ws : WorldState)
    (hws : mapGet e.worldStates storyworldId = some ws) :
    mapGet (e.applyOneMutation storyworldId agentId m).worldStates storyworldId
      = some (ws.applyMutation m agentId) := by
  unfold Engine.applyOneMutation
  rw [hws]
  exact mapGet_mapSet_self e.worldStates storyworldId _

theorem applyMutations_cons (ws : WorldState) (m : VariableMutation)
    (ms : List VariableMutation) (a : String) :
    ws.applyMutations (m :: ms) a = (ws.applyMutation m a).applyMutations ms a := by
  simp [WorldState.applyMutations]

theorem applyChoiceMutations_parts (e : Engine) (storyworldId agentId : String)
    (ms : List VariableMutation) (ws : WorldState)
    (hws : mapGet e.worldStates storyworldId = some ws) :
    mapGet (e.applyChoiceMutations storyworldId agentId ms).worldStates storyworldId
      = some (ws.applyMutations ms agentId)
    ∧ (e.applyChoiceMutations storyworldId agentId ms).simulation = e.simulation
    ∧ (e.applyChoiceMutations storyworldId agentId ms).sessionData = e.sessionData
    ∧ (e.applyChoiceMutations storyworldId agentId ms).storyworlds = e.storyworlds := by
  induction ms generalizing e ws with
  | nil =>
    refine ⟨?_, rfl, rfl, rfl⟩
    rw [WorldState.applyMutations]
    simpa using hws
  | cons m rest ih =>
    rw [Engine.applyChoiceMutations]
    have h1 := applyOneMutation_ws e storyworldId agentId m ws hws
    have h2 := applyOneMutation_parts e storyworldId agentId m
    obtain ⟨ha, hb, hc, hd⟩ := ih (e.applyOneMutation storyworldId agentId m)
      (ws.applyMutation m agentId) h1
    refine ⟨?_, ?_, ?_, ?_⟩
    · rw [ha, applyMutations_cons]
    · rw [hb, h2.1]
    · rw [hc, h2.2.1]
    · rw [hd, h2.2.2]

theorem applyMutation_progress_frame (ws : WorldState) (m : VariableMutation) (a : String) :
    (ws.applyMutation m a).spoolProgress = ws.spoolProgress
    ∧ (ws.applyMutation m a).frame = ws.frame := by
  unfold WorldState.applyMutation
  cases ws.getVariable m.variableId with
  | none => exact ⟨rfl, rfl⟩
  | some cur => exact ⟨rfl, rfl⟩

theorem applyMutations_progress_frame (ws : WorldState) (ms : List VariableMutation)
    (a : String) :
    (ws.applyMutations ms a).spoolProgress = ws.spoolProgress
    ∧ (ws.applyMutations ms a).frame = ws.frame := by
  induction ms generalizing ws with
  | nil => exact ⟨rfl, rfl⟩
  | cons m rest ih =>
    rw [applyMutations_cons]
    obtain ⟨h1, h2⟩ := applyMutation_progress_frame ws m a
    obtain ⟨h3, h4⟩ := ih (ws.applyMutation m a)
    exact ⟨h3.trans h1, h4.trans h2⟩

theorem getAgentSpools_eq_of_progress_eq (w1 w2 : WorldState) (agentId : String)
    (h : w1.spoolProgress = w2.spoolProgress) :
    w1.getAgentSpools agentId = w2.getAgentSpools agentId := by
  unfold WorldState.getAgentSpools
  rw [h]

theorem getAgentSpools_setAgentSpools (ws : WorldState) (agentId : String)
    (l : List SpoolProgress) :
    (ws.setAgentSpools agentId l).getAgentSpools agentId = l := by
  unfold WorldState.setAgentSpools WorldState.getAgentSpools
  rw [mapGet_mapSet_self]
  rfl

theorem advanceToEncounter_ws (e : Engine) (agentId encounterId storyworldId : String)
    (ws : WorldState)
    (hsid : e.simulation.storyworldIds.head? = some storyworldId)
    (hws : mapGet e.worldStates storyworldId = some ws) :
    mapGet (e.advanceToEncounter agentId encounterId).worldStates storyworldId
      = some (ws.setAgentSpools agentId ((ws.getAgentSpools agentId).map
          (fun p => if p.status == SpoolStatus.ACTIVE
                    then { p with currentEncounterId := some encounterId } else p)))
    ∧ ∃ ev, (e.advanceToEncounter agentId encounterId).events = e.events ++ [ev]
        ∧ ev.eventType = "ENCOUNTER_STARTED" := by
  unfold Engine.advanceToEncounter
  rw [hsid]
  dsimp only
  rw [hws]
  dsimp only
  exact ⟨mapGet_mapSet_self e.worldStates storyworldId _, _, rfl, rfl⟩

theorem completeSpool_varStates (e : Engine) (agentId spoolId storyworldId : String)
    (ws : WorldState)
    (hsid : e.simulation.storyworldIds.head? = some storyworldId)
    (hws : mapGet e.worldStates storyworldId = some ws) :
    ∃ ws1, mapGet (e.completeSpool agentId spoolId).worldStates storyworldId = some ws1
      ∧ ws1.varStates = ws.varStates := by
  unfold Engine.completeSpool
  rw [hsid]
  dsimp only
  rw [hws]
  dsimp only
  exact ⟨_, mapGet_mapSet_self e.worldStates storyworldId _, rfl⟩

theorem enterSpool_varStates (e : Engine) (agentId spoolId storyworldId : String)
    (sw : Storyworld) (ws : WorldState)
    (hsid : e.simulation.storyworldIds.head? = some storyworldId)
    (hsw : mapGet e.storyworlds storyworldId = some sw)
    (hws : mapGet e.worldStates storyworldId = some ws) :
    ∃ ws1, mapGet (e.enterSpool agentId spoolId).worldStates storyworldId = some ws1
      ∧ ws1.varStates = ws.varStates := by
  unfold Engine.enterSpool
  rw [hsid]
  dsimp only
  rw [hsw, hws]
  dsimp only
  cases sw.spools.find? (fun s => s.id == spoolId) with
  | none => exact ⟨ws, hws, rfl⟩
  | some spool =>
    dsimp only
    exact ⟨_, mapGet_mapSet_self e.worldStates storyworldId _, rfl⟩

theorem completeSpool_sess_events (e : Engine) (agentId spoolId : String) :
    (e.completeSpool agentId spoolId).sessionData = e.sessionData
    ∧ ∃ tail, (e.completeSpool agentId spoolId).events = e.events ++ tail := by
  unfold Engine.completeSpool
  cases e.simulation.storyworldIds.head? with
  | none => exact ⟨rfl, _, rfl⟩
  | some sid =>
    dsimp only
    cases mapGet e.worldStates sid with
    | none => exact ⟨rfl, _, rfl⟩
    | some ws => exact ⟨rfl, _, rfl⟩

theorem advanceToEncounter_sess_events (e : Engine) (agentId encounterId : String) :
    (e.advanceToEncounter agentId encounterId).sessionData = e.sessionData
    ∧ ∃ tail, (e.advanceToEncounter agentId encounterId).events = e.events ++ tail := by
  unfold Engine.advanceToEncounter
  cases e.simulation.storyworldIds.head? with
  | none => exact ⟨rfl, _, rfl⟩
  | some sid =>
    dsimp only
    cases mapGet e.worldStates sid with
    | none => exact ⟨rfl, _, rfl⟩
    | some ws => exact ⟨rfl, _, rfl⟩

theorem enterSpool_sess_events (e : Engine) (agentId spoolId : String) :
    (e.enterSpool agentId spoolId).sessionData = e.sessionData
    ∧ ∃ tail, (e.enterSpool agentId spoolId).events = e.events ++ tail := by
  unfold Engine.enterSpool
  cases e.simulation.storyworldIds.head? with
  | none => exact ⟨rfl, _, (List.append_nil e.events).symm⟩
  | some sid =>
    dsimp only
    cases mapGet e.storyworlds sid with
    | none =>
      cases mapGet e.worldStates sid with
      | none => exact ⟨rfl, _, (List.append_nil e.events).symm⟩
      | some ws => exact ⟨rfl, _, (List.append_nil e.events).symm⟩
    | some sw =>
      cases mapGet e.worldStates sid with
      | none => exact ⟨rfl, _, (List.append_nil e.events).symm⟩
      | some ws =>
        dsimp only
        cases sw.spools.find? (fun s => s.id == spoolId) with
        | none => exact ⟨rfl, _, (List.append_nil e.events).symm⟩
        | some spool => exact ⟨rfl, _, rfl⟩

theorem findChoice_found_encounter (choiceId : String) :
    ∀ (encs : List Encounter) (enc : Encounter) (ch : Choice),
    findChoiceInEncounters choiceId encs = some (enc, ch) →
    enc.choices.find? (fun c => c.id == choiceId) = some ch := by
  intro encs
  induction encs with
  | nil =>
    intro enc ch h
    exact absurd h (by simp [findChoiceInEncounters])
  | cons e0 rest ih =>
    intro enc ch h
    rw [findChoiceInEncounters] at h
    cases hf : e0.choices.find? (fun c => c.id == choiceId) with
    | some c0 =>
      rw [hf] at h
      simp only [Option.some.injEq, Prod.mk.injEq] at h
      obtain ⟨he, hc⟩ := h
      subst he
      subst hc
      exact hf
    | none =>
      rw [hf] at h
      exact ih enc ch h

theorem findIdx?_offset_of_find? {α : Type} (p : α → Bool) :
    ∀ (l : List α) (x : α) (i : Nat), l.find? p = some x →
    ∃ j : Nat, l.findIdx? p i = some (i + j)
      ∧ ∃ c, l.get? j = some c ∧ p c = true := by
  intro l
  induction l with
  | nil =>
    intro x i h
    exact absurd h (by simp)
  | cons a as ih =>
    intro x i h
    rw [List.find?_cons] at h
    cases hpa : p a with
    | true =>
      refine ⟨0, ?_, a, rfl, hpa⟩
      rw [List.findIdx?_cons, hpa]
      simp
    | false =>
      rw [hpa] at h
      obtain ⟨j, hj, c, hc, hpc⟩ := ih x (i + 1) h
      refine ⟨j + 1, ?_, c, ?_, hpc⟩
      · rw [List.findIdx?_cons, hpa]
        simp only [Bool.false_eq_true, if_false]
        rw [hj]
        congr 1
        omega
      · simpa using hc

theorem jsFindIndex_of_find? {α : Type} (p : α → Bool) (l : List α) (x : α)
    (h : l.find? p = some x) :
    ∃ i : Nat, jsFindIndex p l = (i : Int)
      ∧ ∃ c, l.get? i = some c ∧ p c = true := by
  obtain ⟨j, hj, c, hc, hpc⟩ := findIdx?_offset_of_find? p l x 0 h
  refine ⟨j, ?_, c, hc, hpc⟩
  unfold jsFindIndex
  rw [show l.findIdx? p = some j by simpa using hj]

theorem applyFoundChoice_sessionData (e : Engine) (storyworldId agentId choiceId : String)
    (enc : Encounter) (ch : Choice) (ws : WorldState) (sd : SessionData)
    (hws : mapGet e.worldStates storyworldId = some ws)
    (hsd : mapGet e.sessionData agentId = some sd) :
    mapGet (e.applyFoundChoice storyworldId agentId choiceId enc ch).sessionData agentId
      = some { sd with choices := sd.choices ++ [recordedEntry e enc ch choiceId] } := by
  unfold Engine.applyFoundChoice
  have hrec := recordSessionChoice_parts e agentId enc ch choiceId
  have hled := recordSessionChoice_ledger e agentId enc ch choiceId sd hsd
  have hws1 : mapGet (e.recordSessionChoice agentId enc ch choiceId).worldStates storyworldId
      = some ws := by rw [hrec.2.1]; exact hws
  have hmut := applyChoiceMutations_parts (e.recordSessionChoice agentId enc ch choiceId)
    storyworldId agentId ch.mutations ws hws1
  have hE3 : mapGet (((e.recordSessionChoice agentId enc ch choiceId).applyChoiceMutations
      storyworldId agentId ch.mutations).emitEvent "NARRATIVE" "CHOICE_MADE"
      [("encounterId", .vStr enc.id), ("choiceId", .vStr ch.id), ("choiceText", .vStr ch.text)]
      (some agentId) none).sessionData agentId
      = some { sd with choices := sd.choices ++ [recordedEntry e enc ch choiceId] } := by
    show mapGet ((e.recordSessionChoice agentId enc ch choiceId).applyChoiceMutations
      storyworldId agentId ch.mutations).sessionData agentId = _
    rw [hmut.2.2.1]
    exact hled
  split
  · rw [(completeSpool_sess_events _ agentId enc.spoolId).1]
    exact hE3
  · split
    · rw [(advanceToEncounter_sess_events _ agentId _).1]
      exact hE3
    · split
      · rw [(enterSpool_sess_events _ agentId _).1]
        exact hE3
      · exact hE3

theorem applyFoundChoice_varStates (e : Engine) (storyworldId agentId choiceId : String)
    (sw : Storyworld) (ws : WorldState) (enc : Encounter) (ch : Choice)
    (hsid : e.simulation.storyworldIds.head? = some storyworldId)
    (hsw : mapGet e.storyworlds storyworldId = some sw)
    (hws : mapGet e.worldStates storyworldId = some ws) :
    ∃ ws1, mapGet (e.applyFoundChoice storyworldId agentId choiceId enc ch).worldStates
        storyworldId = some ws1
      ∧ ws1.varStates = (ws.applyMutations ch.mutations agentId).varStates := by
  unfold Engine.applyFoundChoice
  have hrec := recordSessionChoice_parts e agentId enc ch choiceId
  have hws1 : mapGet (e.recordSessionChoice agentId enc ch choiceId).worldStates storyworldId
      = some ws := by rw [hrec.2.1]; exact hws
  have hmut := applyChoiceMutations_parts (e.recordSessionChoice agentId enc ch choiceId)
    storyworldId agentId ch.mutations ws hws1
  have hsid3 : (((e.recordSessionChoice agentId enc ch choiceId).applyChoiceMutations
      storyworldId agentId ch.mutations).emitEvent "NARRATIVE" "CHOICE_MADE"
      [("encounterId", .vStr enc.id), ("choiceId", .vStr ch.id), ("choiceText", .vStr ch.text)]
      (some agentId) none).simulation.storyworldIds.head? = some storyworldId := by
    show ((e.recordSessionChoice agentId enc ch choiceId).applyChoiceMutations
      storyworldId agentId ch.mutations).simulation.storyworldIds.head? = _
    rw [hmut.2.1, hrec.1]
    exact hsid
  have hsw3 : mapGet (((e.recordSessionChoice agentId enc ch choiceId).applyChoiceMutations
      storyworldId agentId ch.mutations).emitEvent "NARRATIVE" "CHOICE_MADE"
      [("encounterId", .vStr enc.id), ("choiceId", .vStr ch.id), ("choiceText", .vStr ch.text)]
      (some agentId) none).storyworlds storyworldId = some sw := by
    show mapGet ((e.recordSessionChoice agentId enc ch choiceId).applyChoiceMutations
      storyworldId agentId ch.mutations).storyworlds storyworldId = _
    rw [hmut.2.2.2, hrec.2.2.1]
    exact hsw
  have hws3 : mapGet (((e.recordSessionChoice agentId enc ch choiceId).applyChoiceMutations
      storyworldId agentId ch.mutations).emitEvent "NARRATIVE" "CHOICE_MADE"
      [("encounterId", .vStr enc.id), ("choiceId", .vStr ch.id), ("choiceText", .vStr ch.text)]
      (some agentId) none).worldStates storyworldId
      = some (ws.applyMutations ch.mutations agentId) := by
    show mapGet ((e.recordSessionChoice agentId enc ch choiceId).applyChoiceMutations
      storyworldId agentId ch.mutations).worldStates storyworldId = _
    exact hmut.1
  split
  · exact completeSpool_varStates _ agentId enc.spoolId storyworldId _ hsid3 hws3
  · split
    · obtain ⟨h1, -⟩ := advanceToEncounter_ws _ agentId (ch.nextEncounterId.getD "")
        storyworldId _ hsid3 hws3
      exact ⟨_, h1, rfl⟩
    · split
      · exact enterSpool_varStates _ agentId (ch.nextSpoolId.getD "") storyworldId sw _
          hsid3 hsw3 hws3
      · exact ⟨_, hws3, rfl⟩

theorem applyFoundChoice_events (e : Engine) (storyworldId agentId choiceId : String)
    (enc : Encounter) (ch : Choice) :
    ∃ ev ∈ (e.applyFoundChoice storyworldId agentId choiceId enc ch).events,
      ev.eventType = "CHOICE_MADE" ∧ ev.actorId = some agentId := by
  unfold Engine.applyFoundChoice
  have hmem : ∀ e9 : Engine, ∃ ev ∈ (e9.emitEvent "NARRATIVE" "CHOICE_MADE"
      [("encounterId", .vStr enc.id), ("choiceId", .vStr ch.id), ("choiceText", .vStr ch.text)]
      (some agentId) none).events, ev.eventType = "CHOICE_MADE" ∧ ev.actorId = some agentId := by
    intro e9
    refine ⟨{ id := uuidStr e9.uuidCounter, simulationId := e9.simulation.id,
              frame := e9.simulation.currentFrame, stage := "RESOLUTION",
              category := "NARRATIVE", eventType := "CHOICE_MADE",
              actorId := some agentId, targetId := none,
              payload := [("encounterId", .vStr enc.id), ("choiceId", .vStr ch.id),
                          ("choiceText", .vStr ch.text)] }, ?_, rfl, rfl⟩
    exact List.mem_append_right e9.events (List.mem_singleton.mpr rfl)
  split
  · obtain ⟨-, tail, htail⟩ := completeSpool_sess_events _ agentId enc.spoolId
    obtain ⟨ev, hev, h1, h2⟩ := hmem _
    exact ⟨ev, by rw [htail]; exact List.mem_append_left tail hev, h1, h2⟩
  · split
    · obtain ⟨-, tail, htail⟩ := advanceToEncounter_sess_events _ agentId _
      obtain ⟨ev, hev, h1, h2⟩ := hmem _
      exact ⟨ev, by rw [htail]; exact List.mem_append_left tail hev, h1, h2⟩
    · split
      · obtain ⟨-, tail, htail⟩ := enterSpool_sess_events _ agentId _
        obtain ⟨ev, hev, h1, h2⟩ := hmem _
        exact ⟨ev, by rw [htail]; exact List.mem_append_left tail hev, h1, h2⟩
      · exact hmem _

/-- C4: invalid-choice atomicity.  A submitted choice id that occurs in
no encounter of the loaded storyworld makes `processChoice` emit one
INVALID_CHOICE system event and return with the world states (variable
states and spool progress) and every session ledger unchanged. -/
theorem invalid_choice_is_atomic (e : Engine) (agentId choiceId storyworldId : String)
    (sw : Storyworld) (ws : WorldState)
    (hsid : e.simulation.storyworldIds.head? = some storyworldId)
    (hsw : mapGet e.storyworlds storyworldId = some sw)
    (hws : mapGet e.worldStates storyworldId = some ws)
    (habsent : ∀ enc ∈ sw.encounters, ∀ c ∈ enc.choices, c.id ≠ choiceId) :
    (e.processChoice agentId choiceId).worldStates = e.worldStates
    ∧ (e.processChoice agentId choiceId).sessionData = e.sessionData
    ∧ ∃ ev, (e.processChoice agentId choiceId).events = e.events ++ [ev]
        ∧ ev.eventType = "INVALID_CHOICE" ∧ ev.category = "SYSTEM"
        ∧ ev.actorId = some agentId := by
  have hp := processChoice_not_found e agentId choiceId storyworldId sw ws hsid hsw hws
    (not_found_of_all_absent choiceId sw.encounters habsent)
  rw [hp]
  exact ⟨rfl, rfl, _, rfl, rfl, rfl, rfl⟩

/-- Witness for C4 at the fixture engine and the absent id "nope". -/
theorem invalid_choice_is_atomic_witness :
    (engBase.processChoice "a" "nope").worldStates = engBase.worldStates
    ∧ (engBase.processChoice "a" "nope").sessionData = engBase.sessionData
    ∧ ∃ ev, (engBase.processChoice "a" "nope").events = engBase.events ++ [ev]
        ∧ ev.eventType = "INVALID_CHOICE" ∧ ev.category = "SYSTEM"
        ∧ ev.actorId = some "a" :=
  invalid_choice_is_atomic engBase "a" "nope" "w" swFix (WorldState.ofStoryworld swFix)
    rfl rfl rfl (by decide)

/-- C5: choice-sequence completeness.  Every ledger entry recorded by
`processChoice` carries the full statically-declared ordered choice-id
list of the owning encounter (not a gate-filtered subset), its
choice index is a valid index into that list, and the element at that
index is the chosen choice id. -/
theorem choice_record_completeness (e : Engine) (agentId choiceId storyworldId : String)
    (sw : Storyworld) (ws : WorldState) (enc : Encounter) (ch : Choice) (sd : SessionData)
    (hsid : e.simulation.storyworldIds.head? = some storyworldId)
    (hsw : mapGet e.storyworlds storyworldId = some sw)
    (hws : mapGet e.worldStates storyworldId = some ws)
    (hfound : findChoiceInEncounters choiceId sw.encounters = some (enc, ch))
    (hsd : mapGet e.sessionData agentId = some sd) :
    ∃ sd' entry,
      mapGet (e.processChoice agentId choiceId).sessionData agentId = some sd'
      ∧ sd'.choices = sd.choices ++ [entry]
      ∧ entry.availableChoices = enc.choices.map (fun c => c.id)
      ∧ ∃ i : Nat, entry.choiceIndex = (i : Int)
          ∧ i < entry.availableChoices.length
          ∧ entry.availableChoices.get? i = some choiceId := by
  rw [processChoice_found e agentId choiceId storyworldId sw ws enc ch hsid hsw hws hfound]
  refine ⟨_, recordedEntry e enc ch choiceId,
    applyFoundChoice_sessionData e storyworldId agentId choiceId enc ch ws sd hws hsd,
    rfl, rfl, ?_⟩
  have hfindc := findChoice_found_encounter choiceId sw.encounters enc ch hfound
  obtain ⟨i, hidx, c, hget, hpc⟩ :=
    jsFindIndex_of_find? (fun c => c.id == choiceId) enc.choices ch hfindc
  refine ⟨i, hidx, ?_, ?_⟩
  · have hlt : i < enc.choices.length := by
      rcases List.get?_eq_some.mp hget with ⟨hlt, -⟩
      exact hlt
    show i < (enc.choices.map (fun c => c.id)).length
    simpa [List.length_map] using hlt
  · have hcid : c.id = choiceId := by simpa [beq_iff_eq] using hpc
    show (enc.choices.map (fun c => c.id)).get? i = some choiceId
    rw [List.get?_map, hget]
    simp [hcid]

/-- Witness for C5 at the fixture engine and the choice "c_end". -/
theorem choice_record_completeness_witness :
    ∃ sd' entry,
      mapGet (engBase.processChoice "a" "c_end").sessionData "a" = some sd'
      ∧ sd'.choices = ({ startFrame := 0, choices := [] } : SessionData).choices ++ [entry]
      ∧ entry.availableChoices = encOne.choices.map (fun c => c.id)
      ∧ ∃ i : Nat, entry.choiceIndex = (i : Int)
          ∧ i < entry.availableChoices.length
          ∧ entry.availableChoices.get? i = some "c_end" :=
  choice_record_completeness engBase "a" "c_end" "w" swFix (WorldState.ofStoryworld swFix)
    encOne choiceEnd { startFrame := 0, choices := [] } rfl rfl rfl rfl rfl

/-- C9 (implicit behaviour): `processChoice` applies a located choice
unconditionally.  The only hypotheses are that the storyworld is
loaded and the choice id occurs in some encounter: for EVERY world
state — whatever the agent's spool progress, whether or not the
choice's gate holds, and whether or not the encounter is the agent's
current one — the ledger is extended, all mutations are applied, and
CHOICE_MADE is emitted; availability is never re-checked. -/
theorem found_choice_always_applied (e : Engine) (agentId choiceId storyworldId : String)
    (sw : Storyworld) (ws : WorldState) (enc : Encounter) (ch : Choice) (sd : SessionData)
    (hsid : e.simulation.storyworldIds.head? = some storyworldId)
    (hsw : mapGet e.storyworlds storyworldId = some sw)
    (hws : mapGet e.worldStates storyworldId = some ws)
    (hfound : findChoiceInEncounters choiceId sw.encounters = some (enc, ch))
    (hsd : mapGet e.sessionData agentId = some sd) :
    (∃ sd', mapGet (e.processChoice agentId choiceId).sessionData agentId = some sd'
        ∧ sd'.choices = sd.choices ++ [recordedEntry e enc ch choiceId])
    ∧ (∃ ws1, mapGet (e.processChoice agentId choiceId).worldStates storyworldId = some ws1
        ∧ ws1.varStates = (ws.applyMutations ch.mutations agentId).varStates)
    ∧ (∃ ev ∈ (e.processChoice agentId choiceId).events,
        ev.eventType = "CHOICE_MADE" ∧ ev.actorId = some agentId) := by
  rw [processChoice_found e agentId choiceId storyworldId sw ws enc ch hsid hsw hws hfound]
  exact ⟨⟨_, applyFoundChoice_sessionData e storyworldId agentId choiceId enc ch ws sd hws hsd,
          rfl⟩,
         applyFoundChoice_varStates e storyworldId agentId choiceId sw ws enc ch hsid hsw hws,
         applyFoundChoice_events e storyworldId agentId choiceId enc ch⟩

/-- Witness for C9 at the fixture engine: the chosen choice's gate
evaluates false and the agent has never entered any spool, yet the
choice is recorded, its mutation applied, and CHOICE_MADE emitted. -/
theorem found_choice_always_applied_witness :
    evaluate swFix "g_never" (WorldState.ofStoryworld swFix) (some "a") = false
    ∧ (WorldState.ofStoryworld swFix).getAgentSpools "a" = []
    ∧ ((∃ sd', mapGet (engBase.processChoice "a" "c_go").sessionData "a" = some sd'
          ∧ sd'.choices = ({ startFrame := 0, choices := [] } : SessionData).choices
              ++ [recordedEntry engBase encOne choiceGo "c_go"])
       ∧ (∃ ws1, mapGet (engBase.processChoice "a" "c_go").worldStates "w" = some ws1
          ∧ ws1.varStates = ((WorldState.ofStoryworld swFix).applyMutations
              choiceGo.mutations "a").varStates)
       ∧ (∃ ev ∈ (engBase.processChoice "a" "c_go").events,
          ev.eventType = "CHOICE_MADE" ∧ ev.actorId = some "a")) :=
  ⟨rfl, rfl,
   found_choice_always_applied engBase "a" "c_go" "w" swFix (WorldState.ofStoryworld swFix)
     encOne choiceGo { startFrame := 0, choices := [] } rfl rfl rfl rfl rfl⟩

/-- C7 counterexample: resolving "c_go" (next-encounter id "e2") with
TWO ACTIVE spool-progress entries updates the current-encounter id of
BOTH entries — the second changes from "eX" to "e2" — so the claim
that only the first ACTIVE entry is updated and the others are left
unchanged is false. -/
theorem advance_updates_all_active_entries :
    agentSpoolEncounterIds engTwoActive "w" "a" = [some "e1", some "eX"]
    ∧ agentSpoolEncounterIds (engTwoActive.processChoice "a" "c_go") "w" "a"
        = [some "e2", some "e2"] :=
  ⟨rfl, rfl⟩

/-- C7 amended: when a resolved choice is not terminal and names a
(truthy) next-encounter id, EVERY ACTIVE SpoolProgress entry of the
agent has its current-encounter id updated to that id (non-ACTIVE
entries are unchanged), and the last emitted event is
ENCOUNTER_STARTED. -/
theorem next_encounter_updates_every_active_spool (e : Engine)
    (agentId choiceId storyworldId nid : String) (sw : Storyworld) (ws : WorldState)
    (enc : Encounter) (ch : Choice)
    (hsid : e.simulation.storyworldIds.head? = some storyworldId)
    (hsw : mapGet e.storyworlds storyworldId = some sw)
    (hws : mapGet e.worldStates storyworldId = some ws)
    (hfound : findChoiceInEncounters choiceId sw.encounters = some (enc, ch))
    (hterm : ch.isTerminal.getD false = false)
    (hnid : ch.nextEncounterId = some nid) (hne : nid ≠ "") :
    ∃ ws1, mapGet (e.processChoice agentId choiceId).worldStates storyworldId = some ws1
      ∧ ws1.getAgentSpools agentId = (ws.getAgentSpools agentId).map
          (fun p => if p.status == SpoolStatus.ACTIVE
                    then { p with currentEncounterId := some nid } else p)
      ∧ ∃ ev, (e.processChoice agentId choiceId).events.getLast? = some ev
          ∧ ev.eventType = "ENCOUNTER_STARTED" := by
  rw [processChoice_found e agentId choiceId storyworldId sw ws enc ch hsid hsw hws hfound]
  unfold Engine.applyFoundChoice
  have hst : strTruthy ch.nextEncounterId = true := by
    rw [hnid]
    simpa [strTruthy, bne_iff_ne] using hne
  rw [hterm, hst, hnid]
  simp only [Bool.false_eq_true, if_false, if_true, Option.getD_some]
  have hrec := recordSessionChoice_parts e agentId enc ch choiceId
  have hws1 : mapGet (e.recordSessionChoice agentId enc ch choiceId).worldStates storyworldId
      = some ws := by rw [hrec.2.1]; exact hws
  have hmut := applyChoiceMutations_parts (e.recordSessionChoice agentId enc ch choiceId)
    storyworldId agentId ch.mutations ws hws1
  have hsid3 : (((e.recordSessionChoice agentId enc ch choiceId).applyChoiceMutations
      storyworldId agentId ch.mutations).emitEvent "NARRATIVE" "CHOICE_MADE"
      [("encounterId", .vStr enc.id), ("choiceId", .vStr ch.id), ("choiceText", .vStr ch.text)]
      (some agentId) none).simulation.storyworldIds.head? = some storyworldId := by
    show ((e.recordSessionChoice agentId enc ch choiceId).applyChoiceMutations
      storyworldId agentId ch.mutations).simulation.storyworldIds.head? = _
    rw [hmut.2.1, hrec.1]
    exact hsid
  have hws3 : mapGet (((e.recordSessionChoice agentId enc ch choiceId).applyChoiceMutations
      storyworldId agentId ch.mutations).emitEvent "NARRATIVE" "CHOICE_MADE"
      [("encounterId", .vStr enc.id), ("choiceId", .vStr ch.id), ("choiceText", .vStr ch.text)]
      (some agentId) none).worldStates storyworldId
      = some (ws.applyMutations ch.mutations agentId) := by
    show mapGet ((e.recordSessionChoice agentId enc ch choiceId).applyChoiceMutations
      storyworldId agentId ch.mutations).worldStates storyworldId = _
    exact hmut.1
  obtain ⟨h1, ev, hev, hevt⟩ := advanceToEncounter_ws _ agentId nid storyworldId _ hsid3 hws3
  refine ⟨_, h1, ?_, ev, ?_, hevt⟩
  · rw [getAgentSpools_setAgentSpools]
    rw [getAgentSpools_eq_of_progress_eq _ ws agentId
      (applyMutations_progress_frame ws ch.mutations agentId).1]
  · rw [hev, List.getLast?_concat]

/-- Witness for the C7 amended theorem at the two-ACTIVE-spool fixture. -/
theorem next_encounter_updates_every_active_spool_witness :
    ∃ ws1, mapGet (engTwoActive.processChoice "a" "c_go").worldStates "w" = some ws1
      ∧ ws1.getAgentSpools "a" = (wsTwoActive.getAgentSpools "a").map
          (fun p => if p.status == SpoolStatus.ACTIVE
                    then { p with currentEncounterId := some "e2" } else p)
      ∧ ∃ ev, (engTwoActive.processChoice "a" "c_go").events.getLast? = some ev
          ∧ ev.eventType = "ENCOUNTER_STARTED" :=
  next_encounter_updates_every_active_spool engTwoActive "a" "c_go" "w" "e2" swFix
    wsTwoActive encOne choiceGo rfl rfl rfl rfl rfl rfl (by decide)

-- ==========================================================================
-- Claim C6: session export
-- ==========================================================================

theorem exportOutcomesFrom_strip (e : Engine) :
    ∀ (agents : List AgentSlot) (n1 n2 : Nat),
    (e.exportOutcomesFrom n1 agents).map stripSessionId
      = (e.exportOutcomesFrom n2 agents).map stripSessionId := by
  intro agents
  induction agents with
  | nil => intro n1 n2; rfl
  | cons agent rest ih =>
    intro n1 n2
    rw [Engine.exportOutcomesFrom, Engine.exportOutcomesFrom]
    cases mapGet e.sessionData agent.id with
    | none => exact ih n1 n2
    | some sd =>
      dsimp only
      rw [List.map_cons, List.map_cons, ih (n1 + 1) (n2 + 1)]
      rfl

/-- C6 counterexample: two calls to `exportSessionOutcomes` with no
intervening state change draw fresh session ids from the `uuid()`
supply, so the two outcome lists are not byte-for-byte identical: at
the fixture engine the single outcome's session id differs between
the calls. -/
theorem export_twice_not_identical :
    engBase.exportSessionOutcomes 0 ≠ engBase.exportSessionOutcomes 1
    ∧ (engBase.exportSessionOutcomes 0).map (fun o => o.sessionId) = ["uuid-0"]
    ∧ (engBase.exportSessionOutcomes 1).map (fun o => o.sessionId) = ["uuid-1"] := by
  refine ⟨?_, rfl, rfl⟩
  intro h
  exact absurd (congrArg (List.map (fun o => o.sessionId)) h) (by decide)

/-- C6 amended: session export is idempotent up to the freshly drawn
session ids.  Two exports from the same engine state yield outcome
lists that are identical in every field except `sessionId`, whatever
positions of the uuid supply the two calls observe. -/
theorem export_idempotent_modulo_sessionId (e : Engine) (n1 n2 : Nat) :
    (e.exportSessionOutcomes n1).map stripSessionId
      = (e.exportSessionOutcomes n2).map stripSessionId :=
  exportOutcomesFrom_strip e e.simulation.agents n1 n2

-- ==========================================================================
-- Claim C2: frame monotonicity of executeFrame
-- ==========================================================================

theorem framemap_mapSet (m : List (String × WorldState)) (k : String) (w w' : WorldState)
    (hw : mapGet m k = some w) (hf : w'.frame = w.frame) :
    frameStamp (mapSet m k w') = frameStamp m := by
  induction m with
  | nil => simp [mapGet] at hw
  | cons p rest ih =>
    obtain ⟨k0, v0⟩ := p
    rw [mapGet] at hw
    by_cases hk : k0 = k
    · rw [if_pos hk] at hw
      injection hw with hw
      subst hw
      rw [mapSet, if_pos hk]
      simp [frameStamp, hf, hk]
    · rw [if_neg hk] at hw
      rw [mapSet, if_neg hk]
      have h2 := ih hw
      unfold frameStamp at h2
      unfold frameStamp
      simp only [List.map_cons]
      rw [h2]

theorem applyOneMutation_sim_framemap (e : Engine) (storyworldId agentId : String)
    (m : VariableMutation) :
    (e.applyOneMutation storyworldId agentId m).simulation = e.simulation
    ∧ frameStamp (e.applyOneMutation storyworldId agentId m).worldStates
        = frameStamp e.worldStates := by
  unfold Engine.applyOneMutation
  cases hg : mapGet e.worldStates storyworldId with
  | none => exact ⟨rfl, rfl⟩
  | some ws =>
    refine ⟨rfl, ?_⟩
    show frameStamp (mapSet e.worldStates storyworldId (ws.applyMutation m agentId))
        = frameStamp e.worldStates
    exact framemap_mapSet _ _ _ _ hg (applyMutation_progress_frame ws m agentId).2

theorem applyChoiceMutations_sim_framemap (storyworldId agentId : String) :
    ∀ (ms : List VariableMutation) (e : Engine),
    (e.applyChoiceMutations storyworldId agentId ms).simulation = e.simulation
    ∧ frameStamp (e.applyChoiceMutations storyworldId agentId ms).worldStates
        = frameStamp e.worldStates := by
  intro ms
  induction ms with
  | nil => intro e; exact ⟨rfl, rfl⟩
  | cons m rest ih =>
    intro e
    rw [Engine.applyChoiceMutations]
    obtain ⟨h1, h2⟩ := ih (e.applyOneMutation storyworldId agentId m)
    obtain ⟨h3, h4⟩ := applyOneMutation_sim_framemap e storyworldId agentId m
    exact ⟨h1.trans h3, h2.trans h4⟩

theorem completeSpool_sim_framemap (e : Engine) (agentId spoolId : String) :
    (e.completeSpool agentId spoolId).simulation = e.simulation
    ∧ frameStamp (e.completeSpool agentId spoolId).worldStates
        = frameStamp e.worldStates := by
  unfold Engine.completeSpool
  cases e.simulation.storyworldIds.head? with
  | none => exact ⟨rfl, rfl⟩
  | some sid =>
    dsimp only
    cases hg : mapGet e.worldStates sid with
    | none => exact ⟨rfl, rfl⟩
    | some ws =>
      refine ⟨rfl, ?_⟩
      show frameStamp (mapSet e.worldStates sid _) = frameStamp e.worldStates
      exact framemap_mapSet _ _ _ _ hg rfl

theorem advanceToEncounter_sim_framemap (e : Engine) (agentId encounterId : String) :
    (e.advanceToEncounter agentId encounterId).simulation = e.simulation
    ∧ frameStamp (e.advanceToEncounter agentId encounterId).worldStates
        = frameStamp e.worldStates := by
  unfold Engine.advanceToEncounter
  cases e.simulation.storyworldIds.head? with
  | none => exact ⟨rfl, rfl⟩
  | some sid =>
    dsimp only
    cases hg : mapGet e.worldStates sid with
    | none => exact ⟨rfl, rfl⟩
    | some ws =>
      refine ⟨rfl, ?_⟩
      show frameStamp (mapSet e.worldStates sid _) = frameStamp e.worldStates
      exact framemap_mapSet _ _ _ _ hg rfl

theorem enterSpool_sim_framemap (e : Engine) (agentId spoolId : String) :
    (e.enterSpool agentId spoolId).simulation = e.simulation
    ∧ frameStamp (e.enterSpool agentId spoolId).worldStates
        = frameStamp e.worldStates := by
  unfold Engine.enterSpool
  cases e.simulation.storyworldIds.head? with
  | none => exact ⟨rfl, rfl⟩
  | some sid =>
    dsimp only
    cases mapGet e.storyworlds sid with
    | none =>
      cases mapGet e.worldStates sid with
      | none => exact ⟨rfl, rfl⟩
      | some ws => exact ⟨rfl, rfl⟩
    | some sw =>
      cases hg : mapGet e.worldStates sid with
      | none => exact ⟨rfl, rfl⟩
      | some ws =>
        dsimp only
        cases sw.spools.find? (fun s => s.id == spoolId) with
        | none => exact ⟨rfl, rfl⟩
        | some spool =>
          refine ⟨rfl, ?_⟩
          show frameStamp (mapSet e.worldStates sid _) = frameStamp e.worldStates
          exact framemap_mapSet _ _ _ _ hg rfl

theorem recordSessionChoice_sim_framemap (e : Engine) (agentId : String) (enc : Encounter)
    (ch : Choice) (choiceId : String) :
    (e.recordSessionChoice agentId enc ch choiceId).simulation = e.simulation
    ∧ frameStamp (e.recordSessionChoice agentId enc ch choiceId).worldStates
        = frameStamp e.worldStates := by
  obtain ⟨h1, h2, -, -⟩ := recordSessionChoice_parts e agentId enc ch choiceId
  exact ⟨h1, by rw [h2]⟩

theorem applyFoundChoice_sim_framemap (e : Engine) (storyworldId agentId choiceId : String)
    (enc : Encounter) (ch : Choice) :
    (e.applyFoundChoice storyworldId agentId choiceId enc ch).simulation = e.simulation
    ∧ frameStamp (e.applyFoundChoice storyworldId agentId choiceId enc ch).worldStates
        = frameStamp e.worldStates := by
  unfold Engine.applyFoundChoice
  obtain ⟨h1, h2⟩ := recordSessionChoice_sim_framemap e agentId enc ch choiceId
  obtain ⟨h3, h4⟩ := applyChoiceMutations_sim_framemap storyworldId agentId ch.mutations
    (e.recordSessionChoice agentId enc ch choiceId)
  have h5 : (((e.recordSessionChoice agentId enc ch choiceId).applyChoiceMutations
      storyworldId agentId ch.mutations).emitEvent "NARRATIVE" "CHOICE_MADE"
      [("encounterId", .vStr enc.id), ("choiceId", .vStr ch.id), ("choiceText", .vStr ch.text)]
      (some agentId) none).simulation = e.simulation := (h3.trans h1)
  have h6 : frameStamp (((e.recordSessionChoice agentId enc ch choiceId).applyChoiceMutations
      storyworldId agentId ch.mutations).emitEvent "NARRATIVE" "CHOICE_MADE"
      [("encounterId", .vStr enc.id), ("choiceId", .vStr ch.id), ("choiceText", .vStr ch.text)]
      (some agentId) none).worldStates = frameStamp e.worldStates := (h4.trans h2)
  split
  · obtain ⟨h7, h8⟩ := completeSpool_sim_framemap _ agentId enc.spoolId
    exact ⟨h7.trans h5, h8.trans h6⟩
  · split
    · obtain ⟨h7, h8⟩ := advanceToEncounter_sim_framemap _ agentId _
      exact ⟨h7.trans h5, h8.trans h6⟩
    · split
      · obtain ⟨h7, h8⟩ := enterSpool_sim_framemap _ agentId _
        exact ⟨h7.trans h5, h8.trans h6⟩
      · exact ⟨h5, h6⟩

theorem processChoice_sim_framemap (e : Engine) (agentId choiceId : String) :
    (e.processChoice agentId choiceId).simulation = e.simulation
    ∧ frameStamp (e.processChoice agentId choiceId).worldStates
        = frameStamp e.worldStates := by
  unfold Engine.processChoice
  cases e.simulation.storyworldIds.head? with
  | none => exact ⟨rfl, rfl⟩
  | some sid =>
    dsimp only
    cases mapGet e.storyworlds sid with
    | none =>
      cases mapGet e.worldStates sid with
      | none => exact ⟨rfl, rfl⟩
      | some ws => exact ⟨rfl, rfl⟩
    | some sw =>
      cases mapGet e.worldStates sid with
      | none => exact ⟨rfl, rfl⟩
      | some ws =>
        dsimp only
        cases findChoiceInEncounters choiceId sw.encounters with
        | none => exact ⟨rfl, rfl⟩
        | some pair =>
          obtain ⟨enc, ch⟩ := pair
          exact applyFoundChoice_sim_framemap e sid agentId choiceId enc ch

theorem resolveActions_sim_framemap :
    ∀ (acts : List (String × ActionRequest)) (e : Engine),
    (e.resolveActions acts).simulation = e.simulation
    ∧ frameStamp (e.resolveActions acts).worldStates = frameStamp e.worldStates := by
  intro acts
  induction acts with
  | nil => intro e; exact ⟨rfl, rfl⟩
  | cons pair rest ih =>
    intro e
    obtain ⟨agentId, action⟩ := pair
    rw [Engine.resolveActions]
    split
    · split
      · obtain ⟨h1, h2⟩ := ih _
        obtain ⟨h3, h4⟩ := processChoice_sim_framemap e agentId (action.choiceId.getD "")
        exact ⟨h1.trans h3, h2.trans h4⟩
      · obtain ⟨h1, h2⟩ := ih _
        exact ⟨h1, h2⟩
    · split
      · obtain ⟨h1, h2⟩ := ih _
        obtain ⟨h3, h4⟩ := processChoice_sim_framemap e agentId (action.choiceId.getD "")
        exact ⟨h1.trans h3, h2.trans h4⟩
      · exact ih e

theorem observeAgents_preserves :
    ∀ (l : List AgentSlot) (e e1 : Engine) (vs : List (String × AgentView)),
    e.observeAgents l = .ok (e1, vs) →
    e1.simulation = e.simulation ∧ e1.worldStates = e.worldStates := by
  intro l
  induction l with
  | nil =>
    intro e e1 vs h
    rw [Engine.observeAgents] at h
    simp only [Except.ok.injEq, Prod.mk.injEq] at h
    obtain ⟨h1, -⟩ := h
    rw [← h1]
    exact ⟨rfl, rfl⟩
  | cons agent rest ih =>
    intro e e1 vs h
    rw [Engine.observeAgents] at h
    split at h
    · split at h
      · exact Except.noConfusion h
      · dsimp only at h
        split at h
        next msg heq => exact Except.noConfusion h
        next e2 views2 heq =>
          simp only [Except.ok.injEq, Prod.mk.injEq] at h
          obtain ⟨h1, -⟩ := h
          rw [← h1]
          have hrec := ih _ _ _ heq
          exact ⟨hrec.1, hrec.2⟩
    · exact ih e e1 vs h

theorem collectActions_preserves :
    ∀ (l : List AgentSlot) (e e2 : Engine) (handler : ActionHandler)
      (views : List (String × AgentView)) (actions : List (String × ActionRequest)),
    e.collectActions handler views l = (e2, actions) →
    e2.simulation = e.simulation ∧ e2.worldStates = e.worldStates := by
  intro l
  induction l with
  | nil =>
    intro e e2 handler views actions h
    rw [Engine.collectActions] at h
    simp only [Prod.mk.injEq] at h
    rw [← h.1]
    exact ⟨rfl, rfl⟩
  | cons agent rest ih =>
    intro e e2 handler views actions h
    rw [Engine.collectActions] at h
    split at h
    · split at h
      · exact ih _ _ _ _ _ h
      · split at h
        · have hrec := ih _ _ _ _ _ h
          exact ⟨hrec.1, hrec.2⟩
        · exact ih _ _ _ _ _ h
        · rename_i action
          rcases hrec : e.collectActions handler views rest with ⟨e9, acts9⟩
          rw [hrec] at h
          dsimp only at h
          simp only [Prod.mk.injEq] at h
          rw [← h.1]
          exact ih _ _ _ _ _ hrec
    · exact ih _ _ _ _ _ h

theorem transitionFrame_parts (e : Engine) :
    e.transitionFrame.simulation.currentFrame = e.simulation.currentFrame + 1
    ∧ frameStamp e.transitionFrame.worldStates
        = e.worldStates.map (fun p => (p.1, p.2.frame + 1)) := by
  refine ⟨rfl, ?_⟩
  unfold Engine.transitionFrame frameStamp
  rw [List.map_map]
  rfl

theorem finishFrame_preserves (e : Engine) :
    e.finishFrame.simulation.currentFrame = e.simulation.currentFrame
    ∧ e.finishFrame.worldStates = e.worldStates := by
  unfold Engine.finishFrame
  dsimp only
  split
  · split
    · exact ⟨rfl, rfl⟩
    · exact ⟨rfl, rfl⟩
  · split
    · exact ⟨rfl, rfl⟩
    · exact ⟨rfl, rfl⟩

theorem map_frame_inc (l : List (String × WorldState)) :
    l.map (fun p => (p.1, p.2.frame + 1))
      = (frameStamp l).map (fun q => (q.1, q.2 + 1)) := by
  unfold frameStamp
  rw [List.map_map]
  rfl

/-- C2: frame monotonicity.  Every successful `executeFrame` call
yields a state whose simulation current-frame is exactly the old value
plus one and whose loaded world states all carry their old frame
counter plus one; hence over any sequence of successful calls the
current frame strictly increases and never repeats or decreases. -/
theorem executeFrame_increments_frame (e e' : Engine) (handler : ActionHandler)
    (h : e.executeFrame handler = .ok e') :
    e'.simulation.currentFrame = e.simulation.currentFrame + 1
    ∧ frameStamp e'.worldStates = e.worldStates.map (fun p => (p.1, p.2.frame + 1)) := by
  unfold Engine.executeFrame at h
  split at h
  · cases hobs : e.observeAgents e.simulation.agents with
    | error msg => rw [hobs] at h; exact Except.noConfusion h
    | ok p =>
      obtain ⟨e1, views⟩ := p
      rw [hobs] at h
      dsimp only at h
      rcases hcol : e1.collectActions handler views e1.simulation.agents with ⟨e2, actions⟩
      rw [hcol] at h
      dsimp only at h
      injection h with h
      subst h
      obtain ⟨hs1, hw1⟩ := observeAgents_preserves e.simulation.agents e e1 views hobs
      obtain ⟨hs2, hw2⟩ := collectActions_preserves e1.simulation.agents e1 e2 handler
        views actions hcol
      obtain ⟨hs3, hw3⟩ := resolveActions_sim_framemap actions e2
      obtain ⟨ht1, ht2⟩ := transitionFrame_parts (e2.resolveActions actions)
      obtain ⟨hf1, hf2⟩ := finishFrame_preserves (e2.resolveActions actions).transitionFrame
      constructor
      · rw [hf1, ht1, hs3, hs2, hs1]
      · rw [hf2, ht2, map_frame_inc, hw3, hw2, hw1, ← map_frame_inc]
  · exact Except.noConfusion h

/-- Witness for C2 at the fixture engine. -/
theorem executeFrame_increments_frame_witness :
    engBase.executeFrame handlerNone = .ok engBaseAfterFrame
    ∧ (engBaseAfterFrame.simulation.currentFrame = engBase.simulation.currentFrame + 1
       ∧ frameStamp engBaseAfterFrame.worldStates
           = engBase.worldStates.map (fun p => (p.1, p.2.frame + 1))) :=
  ⟨rfl, executeFrame_increments_frame engBase engBaseAfterFrame handlerNone rfl⟩

end StoryForge
